import Mathlib

/-!
Verification of the skill-file evaluation pipeline against its specification.

This file gives a shallow embedding, in Lean 4, of the extraction and
rule-scoring core of the repository (the per-domain `extract_*` and
`check_rule_*` functions together with the statistical primitives), and
settles the frozen claims about it.

Modelling conventions:
* Python strings are Lean `String`s; scanning code works on `List Char`.
* Python floats are modelled as exact rationals `ℚ`; `round` is modelled as
  round-half-to-even on rationals.
* JSON values are the inductive `JVal`; the standard-library `json.loads`
  is an external black box, modelled by the executable `jsonLoads` below.
* Code that can raise a Python exception is embedded in `Except PyExc`;
  an `.error` value marks an uncaught exception at the corresponding
  program point.
* All recursion is structural (fuel-based where the Python loop is driven
  by indices), so every definition is executable by the kernel.
-/

/-- Python whitespace for `str.strip` / `str.split` / regex `\s`
(ASCII fragment: space, tab, newline, carriage return, vertical tab, form feed). -/
def isPySpace (c : Char) : Bool :=
  c == ' ' || c == '\t' || c == '\n' || c == '\r' || c == '\x0b' || c == '\x0c'

/-- Regex `\w`: word characters (ASCII model). -/
def isWordChar (c : Char) : Bool :=
  c.isAlpha || c.isDigit || c == '_'

/-- Characters matched by the lookarounds `[a-zA-Z_]` of SQL rule 1 (no digits). -/
def isAlphaUnderscore (c : Char) : Bool :=
  c.isAlpha || c == '_'

/-- Python `str.strip()` on a character list. -/
def pyStripList (l : List Char) : List Char :=
  ((l.dropWhile isPySpace).reverse.dropWhile isPySpace).reverse

/-- Python `str.strip()`. -/
def pyStrip (s : String) : String :=
  String.mk (pyStripList s.data)

/-- Python `str.lstrip()`. -/
def pyLStrip (s : String) : String :=
  String.mk (s.data.dropWhile isPySpace)

/-- Python `str.rstrip()`. -/
def pyRStrip (s : String) : String :=
  String.mk (s.data.reverse.dropWhile isPySpace).reverse

/-- Python `str.lstrip('-')` (used by SQL rule 6). -/
def pyLStripDash (s : String) : String :=
  String.mk (s.data.dropWhile (· == '-'))

/-- Python `s.split('\n')` on a character list: the empty string yields `[""]`. -/
def pySplitNlList : List Char → List (List Char)
  | [] => [[]]
  | c :: rest =>
    let r := pySplitNlList rest
    if c == '\n' then [] :: r
    else
      match r with
      | [] => [[c]]
      | h :: t => (c :: h) :: t

/-- Python `s.split('\n')`. -/
def pySplitNl (s : String) : List String :=
  (pySplitNlList s.data).map String.mk

/-- Python `sep.join(parts)`. -/
def pyJoin (sep : String) (parts : List String) : String :=
  match parts with
  | [] => ""
  | p :: rest => rest.foldl (fun acc q => acc ++ sep ++ q) p

/-- Position of the first occurrence of `pat` in `hay` (Python `str.find` when it hits). -/
def listFind? (hay pat : List Char) : Option ℕ :=
  match hay with
  | [] => if pat.isEmpty then some 0 else none
  | _ :: rest =>
    if pat.isPrefixOf hay then some 0
    else (listFind? rest pat).map (· + 1)

/-- Python `sub in s` on character lists. -/
def listContains (hay pat : List Char) : Bool :=
  (listFind? hay pat).isSome

/-- Python `sub in s`. -/
def pyContains (s sub : String) : Bool :=
  listContains s.data sub.data

/-- Python `s.startswith(p)`. -/
def pyStartsWith (s p : String) : Bool :=
  p.data.isPrefixOf s.data

/-- Python `s.upper()` (ASCII model). -/
def pyUpper (s : String) : String :=
  String.mk (s.data.map Char.toUpper)

/-- Python `s.lower()` (ASCII model). -/
def pyLower (s : String) : String :=
  String.mk (s.data.map Char.toLower)

/-- Python `s[a:b]` (slice with clamping). -/
def pySlice (l : List Char) (a b : ℕ) : List Char :=
  (l.drop a).take (b - a)

/-- Python `s[a:]`. -/
def pySliceFrom (l : List Char) (a : ℕ) : List Char :=
  l.drop a

/-- Python `s.replace(' ', '')`. -/
def pyRemoveSpaces (s : String) : String :=
  String.mk (s.data.filter (· ≠ ' '))

/-- A single-quote character as a string (for rendering Python `repr` of lists). -/
def pyQuote : String := String.mk [Char.ofNat 39]

/-- Python `repr` of a list of strings, e.g. `[` `a` `, ` `b` `]` with quotes
(adequate for the detail strings built by the rule checks). -/
def pyReprStrList (xs : List String) : String :=
  "[" ++ pyJoin ", " (xs.map (fun x => pyQuote ++ x ++ pyQuote)) ++ "]"

/-- Round-half-to-even on rationals (`round` of Python, modelling floats as exact rationals). -/
def roundHalfEven (q : ℚ) : ℤ :=
  let f : ℤ := ⌊q⌋
  let r : ℚ := q - f
  if r < 1/2 then f
  else if r > 1/2 then f + 1
  else if Even f then f else f + 1

/-- Python `round(q, nd)` on the rational model of floats. -/
def pyRound (q : ℚ) (nd : ℕ) : ℚ :=
  (roundHalfEven (q * (10 : ℚ) ^ nd) : ℚ) / (10 : ℚ) ^ nd

/-! ## JSON model

`JVal` is the value universe of the standard-library `json` module
(an external collaborator of the repository, consumed as a black box);
`jsonLoads` is an executable model of `json.loads`, returning `none` where
`json.loads` raises `JSONDecodeError`. -/

inductive JVal where
  | null : JVal
  | bool : Bool → JVal
  | num : ℚ → JVal
  | str : String → JVal
  | arr : List JVal → JVal
  | obj : List (String × JVal) → JVal

/-- Lookup in a JSON object association list (the parser keeps at most one
binding per key, mirroring dict semantics). -/
def jGet? (kvs : List (String × JVal)) (k : String) : Option JVal :=
  (kvs.find? (fun p => p.1 == k)).map (·.2)

/-- Insert with dict semantics: an existing key keeps its position, its value
is replaced; a new key is appended. -/
def jInsert (kvs : List (String × JVal)) (k : String) (v : JVal) :
    List (String × JVal) :=
  match kvs with
  | [] => [(k, v)]
  | (k0, v0) :: rest =>
    if k0 == k then (k0, v) :: rest else (k0, v0) :: jInsert rest k v

/-- Python truthiness of a JSON value. -/
def jTruthy : JVal → Bool
  | .null => false
  | .bool b => b
  | .num q => q ≠ 0
  | .str s => s ≠ ""
  | .arr xs => ¬ xs.isEmpty
  | .obj kvs => ¬ kvs.isEmpty

/-- Does this JSON value equal (by Python `==`) the given string? -/
def JVal.isStrVal : JVal → String → Bool
  | .str t, s => t == s
  | _, _ => false

/-- JSON whitespace skipped between tokens. -/
def jsonSkipWs (l : List Char) : List Char :=
  l.dropWhile (fun c => c == ' ' || c == '\t' || c == '\n' || c == '\r')

/-- Parse the four-hex-digit part of a `\uXXXX` escape. -/
def jsonHex4? (l : List Char) : Option (ℕ × List Char) :=
  match l with
  | a :: b :: c :: d :: rest =>
    let hv : Char → Option ℕ := fun ch =>
      if ch.isDigit then some (ch.toNat - 48)
      else if 'a' ≤ ch && ch ≤ 'f' then some (ch.toNat - 87)
      else if 'A' ≤ ch && ch ≤ 'F' then some (ch.toNat - 55)
      else none
    match hv a, hv b, hv c, hv d with
    | some x, some y, some z, some w => some (((x * 16 + y) * 16 + z) * 16 + w, rest)
    | _, _, _, _ => none
  | _ => none

/-- Parse the body of a JSON string literal (after the opening quote). -/
def jsonString? : ℕ → List Char → Option (List Char × List Char)
  | 0, _ => none
  | _ + 1, [] => none
  | fuel + 1, c :: rest =>
    if c == '"' then some ([], rest)
    else if c == '\\' then
      match rest with
      | [] => none
      | e :: rest2 =>
        let cont : Char → List Char → Option (List Char × List Char) :=
          fun ch r =>
            match jsonString? fuel r with
            | some (tail, rem) => some (ch :: tail, rem)
            | none => none
        if e == '"' then cont '"' rest2
        else if e == '\\' then cont '\\' rest2
        else if e == '/' then cont '/' rest2
        else if e == 'b' then cont '\x08' rest2
        else if e == 'f' then cont '\x0c' rest2
        else if e == 'n' then cont '\n' rest2
        else if e == 'r' then cont '\r' rest2
        else if e == 't' then cont '\t' rest2
        else if e == 'u' then
          match jsonHex4? rest2 with
          | some (n, rest3) =>
            if 0xd800 ≤ n && n ≤ 0xdfff then none
            else cont (Char.ofNat n) rest3
          | none => none
        else none
    else if c.toNat < 32 then none
    else
      match jsonString? fuel rest with
      | some (tail, rem) => some (c :: tail, rem)
      | none => none

/-- Parse a JSON number (grammar of RFC 8259), returning its exact rational value. -/
def jsonNumber? (l : List Char) : Option (ℚ × List Char) :=
  let neg := l.head? == some '-'
  let l1 := if neg then l.tail else l
  let intPart := l1.takeWhile Char.isDigit
  let l2 := l1.dropWhile Char.isDigit
  if intPart.isEmpty then none
  else if intPart.length > 1 && intPart.head? == some '0' then none
  else
    let digitsVal : List Char → ℕ := fun ds =>
      ds.foldl (fun acc c => acc * 10 + (c.toNat - 48)) 0
    let intVal : ℕ := digitsVal intPart
    let hasFrac := l2.head? == some '.'
    let fracDigits := if hasFrac then l2.tail.takeWhile Char.isDigit else []
    let l3 := if hasFrac then l2.tail.dropWhile Char.isDigit else l2
    if hasFrac && fracDigits.isEmpty then none
    else
      let hasExp := l3.head? == some 'e' || l3.head? == some 'E'
      let l3a := if hasExp then l3.tail else l3
      let expNeg := hasExp && l3a.head? == some '-'
      let l3b :=
        if hasExp && (l3a.head? == some '-' || l3a.head? == some '+') then l3a.tail else l3a
      let expDigits := if hasExp then l3b.takeWhile Char.isDigit else []
      let l4 := if hasExp then l3b.dropWhile Char.isDigit else l3b
      if hasExp && expDigits.isEmpty then none
      else
        let mantissa : ℚ :=
          (intVal : ℚ) + (digitsVal fracDigits : ℚ) / (10 : ℚ) ^ fracDigits.length
        let expVal := digitsVal expDigits
        let scaled : ℚ :=
          if expNeg then mantissa / (10 : ℚ) ^ expVal else mantissa * (10 : ℚ) ^ expVal
        some (if neg then -scaled else scaled, l4)

mutual

/-- Parse one JSON value from the front of the input. -/
def jsonValue? : ℕ → List Char → Option (JVal × List Char)
  | 0, _ => none
  | fuel + 1, l0 =>
    let l := jsonSkipWs l0
    match l with
    | [] => none
    | c :: rest =>
      if c == '{' then
        match jsonMembers? fuel rest true with
        | some (ms, rem) =>
          some (.obj (ms.foldl (fun acc p => jInsert acc p.1 p.2) []), rem)
        | none => none
      else if c == '[' then
        match jsonElems? fuel rest true with
        | some (xs, rem) => some (.arr xs, rem)
        | none => none
      else if c == '"' then
        match jsonString? (rest.length + 1) rest with
        | some (chars, rem) => some (.str (String.mk chars), rem)
        | none => none
      else if ['t', 'r', 'u', 'e'].isPrefixOf l then some (.bool true, l.drop 4)
      else if ['f', 'a', 'l', 's', 'e'].isPrefixOf l then some (.bool false, l.drop 5)
      else if ['n', 'u', 'l', 'l'].isPrefixOf l then some (.null, l.drop 4)
      else
        match jsonNumber? l with
        | some (q, rem) => some (.num q, rem)
        | none => none

/-- Parse the members of a JSON object after `{` (`first` marks where `}` may close it). -/
def jsonMembers? : ℕ → List Char → Bool → Option (List (String × JVal) × List Char)
  | 0, _, _ => none
  | fuel + 1, l0, first =>
    let l := jsonSkipWs l0
    if first && l.head? == some '}' then some ([], l.tail)
    else
      match l with
      | '"' :: rest =>
        match jsonString? (rest.length + 1) rest with
        | none => none
        | some (kchars, rem) =>
          match jsonSkipWs rem with
          | ':' :: rem2 =>
            match jsonValue? fuel rem2 with
            | none => none
            | some (v, rem3) =>
              match jsonSkipWs rem3 with
              | ',' :: rem4 =>
                match jsonMembers? fuel rem4 false with
                | some (ms, rem5) => some ((String.mk kchars, v) :: ms, rem5)
                | none => none
              | '}' :: rem4 => some ([(String.mk kchars, v)], rem4)
              | _ => none
          | _ => none
      | _ => none

/-- Parse the elements of a JSON array after `[` (`first` marks where `]` may close it). -/
def jsonElems? : ℕ → List Char → Bool → Option (List JVal × List Char)
  | 0, _, _ => none
  | fuel + 1, l0, first =>
    let l := jsonSkipWs l0
    if first && l.head? == some ']' then some ([], l.tail)
    else
      match jsonValue? fuel l with
      | none => none
      | some (v, rem) =>
        match jsonSkipWs rem with
        | ',' :: rem2 =>
          match jsonElems? fuel rem2 false with
          | some (xs, rem3) => some (v :: xs, rem3)
          | none => none
        | ']' :: rem2 => some ([v], rem2)
        | _ => none

end

/-- Model of `json.loads`: parse a whole document, requiring only trailing
whitespace after the value; `none` is `JSONDecodeError`. -/
def jsonLoads (s : String) : Option JVal :=
  match jsonValue? (s.length + 1) s.data with
  | some (v, rem) => if (jsonSkipWs rem).isEmpty then some v else none
  | none => none

/-! ## Python exception model and attribute/subscript semantics -/

/-- Uncaught Python exceptions that the embedded code can raise. -/
inductive PyExc where
  | typeError : String → PyExc
  | attributeError : String → PyExc
  | keyError : String → PyExc
  | valueError : String → PyExc
deriving DecidableEq, Repr

/-- `v.get(k, default)`: only dicts have `.get`; anything else raises
`AttributeError`. -/
def pyGet (v : JVal) (k : String) (dflt : JVal) : Except PyExc JVal :=
  match v with
  | .obj kvs => .ok ((jGet? kvs k).getD dflt)
  | _ => .error (.attributeError "get")

/-- `v[k]` for a string key: `KeyError` on a dict without the key,
`TypeError` on non-dict values (lists want integer indices, strings and
scalars are not subscriptable by a string). -/
def pySubscript (v : JVal) (k : String) : Except PyExc JVal :=
  match v with
  | .obj kvs =>
    match jGet? kvs k with
    | some w => .ok w
    | none => .error (.keyError k)
  | _ => .error (.typeError "not subscriptable by str")

/-- Python `for x in v`: lists iterate elements, strings iterate
one-character strings, dicts iterate keys; scalars raise `TypeError`. -/
def pyIter (v : JVal) : Except PyExc (List JVal) :=
  match v with
  | .arr xs => .ok xs
  | .str s => .ok (s.data.map (fun c => .str (String.mk [c])))
  | .obj kvs => .ok (kvs.map (fun p => .str p.1))
  | _ => .error (.typeError "not iterable")

/-- `v.upper()` on a JSON value: only strings have `.upper`. -/
def pyUpperJ (v : JVal) : Except PyExc String :=
  match v with
  | .str s => .ok (pyUpper s)
  | _ => .error (.attributeError "upper")

/-- Python `needle in v` for a string needle: substring test on strings,
membership on lists, key test on dicts, `TypeError` on scalars. -/
def pyInJ (needle : String) (v : JVal) : Except PyExc Bool :=
  match v with
  | .str s => .ok (pyContains s needle)
  | .arr xs => .ok (xs.any (fun x => x.isStrVal needle))
  | .obj kvs => .ok (kvs.any (fun p => p.1 == needle))
  | _ => .error (.typeError "argument of type is not iterable")

/-- Is the embedded computation an uncaught exception? -/
def isPyError {α : Type} (r : Except PyExc α) : Bool :=
  match r with
  | .error _ => true
  | .ok _ => false

/-! ## `scripts/evaluate.py` — shared token-usage and permission-denial helpers -/

namespace SharedEval

/-- `TOKEN_FIELDS` of `scripts/evaluate.py`. -/
def TOKEN_FIELDS : List String :=
  ["input_tokens", "output_tokens", "cache_read_tokens", "cache_write_tokens",
   "total_cost_usd"]

/-- One parsed line of the opencode JSONL scan of `extract_token_usage`:
either the five token values (a `step_finish` event) or nothing. -/
def tokenLineStep (line : String) : Except PyExc (Option (List (String × JVal))) :=
  match jsonLoads line with
  | none => .ok none
  | some evt =>
    match evt with
    | .obj kvs =>
      if ((jGet? kvs "type").getD .null).isStrVal "step_finish" then do
        let part := (jGet? kvs "part").getD (.obj [])
        let tokens ← pyGet part "tokens" (.obj [])
        let cache ← pyGet tokens "cache" (.obj [])
        let inputV ← pyGet tokens "input" (.str "")
        let outputV ← pyGet tokens "output" (.str "")
        let readV ← pyGet cache "read" (.str "")
        let writeV ← pyGet cache "write" (.str "")
        let costV ← pyGet part "cost" (.str "")
        .ok (some [("input_tokens", inputV), ("output_tokens", outputV),
          ("cache_read_tokens", readV), ("cache_write_tokens", writeV),
          ("total_cost_usd", costV)])
      else .ok none
    | _ => .ok none

/-- Run the JSONL scan over the lines, returning the first `step_finish`
result (the source `return`s inside the loop); `KeyError` is caught per
line, other exceptions escape. -/
def tokenLinesLoop : List String → Except PyExc (Option (List (String × JVal)))
  | [] => .ok none
  | line :: rest =>
    match tokenLineStep line with
    | .error (.keyError _) => tokenLinesLoop rest
    | .error e => .error e
    | .ok (some r) => .ok (some r)
    | .ok none => tokenLinesLoop rest

/-- `extract_token_usage` of `scripts/evaluate.py`: normalized token dict
from the Claude-CLI single-JSON dialect or the opencode JSONL dialect;
missing values are empty strings. -/
def extract_token_usage (raw_output : String) : Except PyExc (List (String × JVal)) := do
  let empty : List (String × JVal) := TOKEN_FIELDS.map (fun k => (k, .str ""))
  if raw_output == "" then
    return empty
  let claude : Except PyExc (Option (List (String × JVal))) :=
    match jsonLoads raw_output with
    | none => .ok none
    | some cli =>
      match cli with
      | .obj kvs =>
        if (jGet? kvs "usage").isSome then do
          let usage := (jGet? kvs "usage").getD .null
          let inputV ← pyGet usage "input_tokens" (.str "")
          let outputV ← pyGet usage "output_tokens" (.str "")
          let readV ← pyGet usage "cache_read_input_tokens" (.str "")
          let writeV ← pyGet usage "cache_creation_input_tokens" (.str "")
          let costV := (jGet? kvs "total_cost_usd").getD (.str "")
          .ok (some [("input_tokens", inputV), ("output_tokens", outputV),
            ("cache_read_tokens", readV), ("cache_write_tokens", writeV),
            ("total_cost_usd", costV)])
        else .ok none
      | _ => .ok none
  match ← claude with
  | some r => return r
  | none =>
    if pyContains raw_output "\n" && pyStartsWith (pyLStrip raw_output) "\x7b" then
      match ← tokenLinesLoop (pySplitNl (pyStrip raw_output)) with
      | some r => return r
      | none => return empty
    else
      return empty

/-- Candidate contents mined from format 1 (Claude CLI `permission_denials`)
by `extract_from_permission_denials`: string-valued `tool_input.content` of
`Write`-tool denials longer than 20 characters. -/
def denialCandidates1 (raw_output : String) : Except PyExc (List String) :=
  match jsonLoads raw_output with
  | none => .ok []
  | some cli =>
    match cli with
    | .obj kvs => do
      let denials := (jGet? kvs "permission_denials").getD (.arr [])
      let items ← pyIter denials
      let step : List String → JVal → Except PyExc (List String) :=
        fun acc denial => do
          let toolName ← pyGet denial "tool_name" .null
          if toolName.isStrVal "Write" then
            let ti ← pyGet denial "tool_input" .null
            let tool_input := if jTruthy ti then ti else .obj []
            let content ← pyGet tool_input "content" (.str "")
            match content with
            | .str c => if c.length > 20 then .ok (acc ++ [c]) else .ok acc
            | _ => .ok acc
          else
            .ok acc
      items.foldlM step []
    | _ => .ok []

/-- One line of the format-2 (opencode JSONL `tool_use`/`write`) scan of
`extract_from_permission_denials`; `KeyError` is caught by the loop. -/
def denialLineStep (line : String) : Except PyExc (Option String) :=
  match jsonLoads line with
  | none => .ok none
  | some evt =>
    match evt with
    | .obj kvs =>
      if ((jGet? kvs "type").getD .null).isStrVal "tool_use" then do
        let part := (jGet? kvs "part").getD (.obj [])
        let tool ← pyGet part "tool" .null
        if tool.isStrVal "write" then
          let state ← pyGet part "state" (.obj [])
          let inp ← pyGet state "input" (.obj [])
          let content ← pyGet inp "content" (.str "")
          match content with
          | .str c => if c.length > 20 then .ok (some c) else .ok none
          | _ => .ok none
        else .ok none
      else .ok none
    | _ => .ok none

/-- Format-2 loop: collect all long write contents, catching `KeyError`
per line and letting other exceptions escape. -/
def denialLinesLoop : List String → Except PyExc (List String)
  | [] => .ok []
  | line :: rest =>
    match denialLineStep line with
    | .error (.keyError _) => denialLinesLoop rest
    | .error e => .error e
    | .ok r => do
      let tail ← denialLinesLoop rest
      .ok ((r.toList) ++ tail)

/-- All candidates considered by `extract_from_permission_denials`:
format 2 is scanned only when format 1 found nothing. -/
def denialCandidates (raw_output : String) : Except PyExc (List String) := do
  let c1 ← denialCandidates1 raw_output
  if c1.isEmpty &&
      pyContains raw_output "\n" && pyStartsWith (pyLStrip raw_output) "\x7b" then
    denialLinesLoop (pySplitNl (pyStrip raw_output))
  else
    .ok c1

/-- Python `max(candidates, key=len)`: the first candidate of maximal length. -/
def pyMaxByLen (h : String) (t : List String) : String :=
  t.foldl (fun best c => if c.length > best.length then c else best) h

/-- `extract_from_permission_denials` of `scripts/evaluate.py`: the longest
string-valued `content`/`input.content` (over 20 chars) of a `Write`-tool
denial (single-JSON format) or a `write`-typed `tool_use` event (JSONL
format), or `None`. -/
def extract_from_permission_denials (raw_output : String) :
    Except PyExc (Option String) := do
  if raw_output == "" then
    return none
  let cs ← denialCandidates raw_output
  match cs with
  | [] => return none
  | h :: t => return some (pyMaxByLen h t)

end SharedEval

/-! ## Generic scanning helpers used to embed the regex-based rule checks -/

/-- Character at position `i`, with an out-of-range default that is neither a
word character nor whitespace. -/
def lgetD (l : List Char) (i : ℕ) : Char :=
  (l.get? i).getD '\x00'

/-- Literal match of `pat` at position `i` (case sensitive). -/
def litAt (l : List Char) (i : ℕ) (pat : List Char) : Bool :=
  pat.isPrefixOf (l.drop i)

/-- Literal match of `pat` at position `i`, ASCII case-insensitive
(`pat` is given in upper case). -/
def litAtCI (l : List Char) (i : ℕ) (pat : List Char) : Bool :=
  ((l.drop i).take pat.length).map Char.toUpper == pat

/-- Length of the whitespace run starting at `i` (regex `\s*` greedily). -/
def wsRun (l : List Char) (i : ℕ) : ℕ :=
  ((l.drop i).takeWhile isPySpace).length

/-- Length of the word-character run starting at `i` (regex `\w+` greedily). -/
def wordRun (l : List Char) (i : ℕ) : ℕ :=
  ((l.drop i).takeWhile isWordChar).length

/-- Regex `\b` before position `i`: start of string or a non-word character. -/
def wordBoundaryLeft (l : List Char) (i : ℕ) : Bool :=
  i == 0 || ¬ isWordChar (lgetD l (i - 1))

/-- Regex `\b` after position `i` (exclusive end of a word). -/
def wordBoundaryRight (l : List Char) (i : ℕ) : Bool :=
  i ≥ l.length || ¬ isWordChar (lgetD l i)

/-- The lookbehind `(?<![a-zA-Z_])` of SQL rule 1 at position `i`. -/
def noAlphaBefore (l : List Char) (i : ℕ) : Bool :=
  i == 0 || ¬ isAlphaUnderscore (lgetD l (i - 1))

/-- The lookahead `(?![a-zA-Z_])` of SQL rule 1 at position `i`. -/
def noAlphaAt (l : List Char) (i : ℕ) : Bool :=
  i ≥ l.length || ¬ isAlphaUnderscore (lgetD l i)

/-- Match a sequence of literal words joined by `\s+` starting at `i`
(case sensitive); returns the end position. -/
def matchWordSeqAt (l : List Char) (i : ℕ) : List (List Char) → Option ℕ
  | [] => some i
  | [w] => if litAt l i w then some (i + w.length) else none
  | w :: rest =>
    if litAt l i w then
      let p := i + w.length
      let r := wsRun l p
      if r ≥ 1 then matchWordSeqAt l (p + r) rest else none
    else none

/-- Split a character list at single spaces (`str.split(' ')` on inputs
without leading, trailing or doubled spaces, which is all rule 1 passes). -/
def splitSpaces : List Char → List (List Char)
  | [] => [[]]
  | c :: rest =>
    let r := splitSpaces rest
    if c == ' ' then [] :: r
    else
      match r with
      | [] => [[c]]
      | w :: ws => (c :: w) :: ws

/-- Split a keyword such as `group by` into its words. -/
def kwWords (kw : String) : List (List Char) :=
  splitSpaces kw.data

/-- Search for keyword `kw` (words joined by `\s+`) with the
`(?<![a-zA-Z_])`/`(?![a-zA-Z_])` lookarounds of SQL rule 1. -/
def kwViolation (l : List Char) (kw : String) : Bool :=
  (List.range (l.length + 1)).any (fun k =>
    noAlphaBefore l k &&
      match matchWordSeqAt l k (kwWords kw) with
      | some e => noAlphaAt l e
      | none => false)

/-- Last position where `pat` occurs in `l`. -/
def lastIndexOf (l pat : List Char) : Option ℕ :=
  ((List.range (l.length + 1)).filter (fun k => litAt l k pat)).getLast?

/-- One line of the Step-0 opencode JSONL scan that both `extract_dbt_models`
and `extract_dockerfile` inline verbatim: returns whether the line marks the
stream as JSONL and the appended `part.text` payload if any; `KeyError`
(a missing `part` or `text` key) is caught by the loop, `TypeError`
(a non-dict `part`) escapes. -/
def jsonlLineStep (line : String) : Except PyExc (Bool × Option JVal) :=
  match jsonLoads line with
  | none => .ok (false, none)
  | some evt =>
    match evt with
    | .obj kvs =>
      if (jGet? kvs "type").isSome && (jGet? kvs "sessionID").isSome then
        if ((jGet? kvs "type").getD .null).isStrVal "text" then
          match pySubscript evt "part" with
          | .error (.keyError _) => .ok (true, none)
          | .error e => .error e
          | .ok part =>
            match pySubscript part "text" with
            | .error (.keyError _) => .ok (true, none)
            | .error e => .error e
            | .ok t => .ok (true, some t)
        else .ok (true, none)
      else .ok (false, none)
    | _ => .ok (false, none)

/-- The Step-0 line loop: accumulate the `is_jsonl` flag and the text parts. -/
def jsonlLinesLoop : List String → Except PyExc (Bool × List JVal)
  | [] => .ok (false, [])
  | line :: rest => do
    let (b, t?) ← jsonlLineStep line
    let (brest, parts) ← jsonlLinesLoop rest
    .ok (b || brest, t?.toList ++ parts)

/-- Python `'\n'.join(parts)` over JSON values: `TypeError` unless all are strings. -/
def joinStrParts (parts : List JVal) : Except PyExc String := do
  let ss ← parts.mapM (fun v =>
    match v with
    | .str s => Except.ok s
    | _ => Except.error (.typeError "sequence item: expected str instance"))
  .ok (pyJoin "\n" ss)

/-- Step 0 shared by the SQL and Dockerfile extractors: when the raw output
looks like an opencode JSONL stream, the joined `part.text` payloads of its
`text` events (the empty string when a JSONL stream has no text events);
`none` when the input is not JSONL. -/
def jsonlTextJoin (raw : String) : Except PyExc (Option String) := do
  if pyContains raw "\n" && pyStartsWith (pyLStrip raw) "\x7b" then
    let (isJsonl, parts) ← jsonlLinesLoop (pySplitNl (pyStrip raw))
    if isJsonl then
      if parts.isEmpty then
        return some ""
      else
        return some (← joinStrParts parts)
    else
      return none
  else
    return none

/-! ## `src/domains/sql-query/evaluate_sql.py` — extraction and rules -/

namespace SqlDomain

/-- `MAJOR_CLAUSES` of `evaluate_sql.py`. -/
def MAJOR_CLAUSES : List String :=
  ["WITH", "SELECT", "FROM", "LEFT JOIN", "RIGHT JOIN",
   "CROSS JOIN", "INNER JOIN", "WHERE", "GROUP BY", "HAVING",
   "ORDER BY", "LIMIT"]

/-- `LOWERCASE_KEYWORDS` of `evaluate_sql.py`. -/
def LOWERCASE_KEYWORDS : List String :=
  ["select", "from", "where", "join", "inner join", "left join",
   "right join", "cross join", "group by", "order by", "having",
   "limit", "with", "as", "on", "and", "or", "in", "between",
   "case", "when", "then", "else", "end", "over", "partition by",
   "sum", "count", "avg", "min", "max", "dense_rank", "row_number",
   "rank", "date_trunc", "extract", "coalesce", "not", "exists",
   "is", "null", "asc", "desc", "preceding", "following",
   "unbounded", "rows", "range", "current row"]

/-- `VALID_PREFIXES` of `evaluate_sql.py` (dbt layer prefixes). -/
def VALID_PREFIXES : List String :=
  ["stg_", "int_", "fct_", "dim_"]

/-- Association-list insert with dict semantics (used for the models dict:
name collisions overwrite, keeping the original position). -/
def assocInsert (kvs : List (String × String)) (k v : String) :
    List (String × String) :=
  match kvs with
  | [] => [(k, v)]
  | (k0, v0) :: rest =>
    if k0 == k then (k0, v) :: rest else (k0, v0) :: assocInsert rest k v

/-- The `(\w+)\.sql` tail of the model-name regex at position `p`. -/
def tryPlainName (l : List Char) (p : ℕ) : Option String :=
  let e := p + wordRun l p
  if e > p && litAt l e ".sql".data then
    some (String.mk (pySlice l p e))
  else none

/-- The optional `(?:models/\S+/)?` branch of the model-name regex,
with greedy backtracking over the position of the closing slash. -/
def tryModelsName (l : List Char) (p : ℕ) : Option String :=
  if litAt l p "models/".data then
    let q0 := p + 7
    let runEnd := q0 + ((l.drop q0).takeWhile (fun c => ¬ isPySpace c)).length
    let qs := ((List.range runEnd).filter
      (fun q => decide (q0 < q) && lgetD l q == '/')).reverse
    qs.findSome? (fun q => tryPlainName l (q + 1))
  else none

/-- Match the filename-comment regex `--\s*(?:models/\S+/)?(\w+)\.sql`
at position `k`, returning the captured model name. -/
def matchNameAt (l : List Char) (k : ℕ) : Option String :=
  if litAt l k "--".data then
    let p := k + 2 + wsRun l (k + 2)
    match tryModelsName l p with
    | some nm => some nm
    | none => tryPlainName l p
  else none

/-- `re.search` of the filename-comment regex (leftmost match). -/
def searchModelName (s : String) : Option String :=
  let l := s.data
  (List.range (l.length + 1)).findSome? (fun k => matchNameAt l k)

/-- `re.match(r'^```sql\s*$', line, re.IGNORECASE)` on an already-stripped line. -/
def matchesSqlFenceOpen (line : String) : Bool :=
  let l := line.data
  ((l.take 6).map Char.toUpper == "```SQL".data) && (l.drop 6).all isPySpace

/-- Collect the lines strictly between the opening fence and the next line
whose stripped form starts with three backticks; returns the collected lines
and the index the source loop stops at. -/
def collectSqlLines (A : Array String) : ℕ → ℕ → List String × ℕ
  | 0, i => ([], i)
  | fuel + 1, i =>
    if i < A.size then
      if pyStartsWith (pyStrip (A.getD i "")) "```" then ([], i)
      else
        let (r, j) := collectSqlLines A fuel (i + 1)
        (A.getD i "" :: r, j)
    else ([], i)

/-- The backward scan of up to four preceding lines for a filename comment. -/
def backName (A : Array String) (i : ℕ) : Option String :=
  ((List.range 4).filterMap
    (fun d => if d + 1 ≤ i then some (i - 1 - d) else none)).findSome?
    (fun j => searchModelName (pyStrip (A.getD j "")))

/-- The main fenced-block scan of `extract_dbt_models` (Step 2). -/
def scanModels (A : Array String) : ℕ → ℕ → List (String × String) → List (String × String)
  | 0, _, models => models
  | fuel + 1, i, models =>
    if i < A.size then
      let line := pyStrip (A.getD i "")
      if matchesSqlFenceOpen line then
        let name? := backName A i
        let (sqlLines, j) := collectSqlLines A (A.size + 1) (i + 1)
        let sql_text := pyStrip (pyJoin "\n" sqlLines)
        let models1 :=
          match name? with
          | some nm => if sql_text ≠ "" then assocInsert models nm sql_text else models
          | none =>
            if sql_text ≠ "" then
              let first_line := pyStrip ((pySplitNl sql_text).headD "")
              match searchModelName first_line with
              | some nm => assocInsert models nm sql_text
              | none =>
                assocInsert models ("unnamed_" ++ toString (models.length + 1)) sql_text
            else models
        scanModels A fuel (j + 1) models1
      else scanModels A fuel (i + 1) models
    else models

/-- The closing part `\n\s*` ++ three backticks of the fallback fence regex,
checked at group-end candidate `e`. -/
def fenceCloseAt (l : List Char) (e : ℕ) : Bool :=
  lgetD l e == '\n' &&
    (let f := e + 1 + wsRun l (e + 1)
     litAt l f "```".data)

/-- `re.search` of the single-block fallback regex (three backticks ++
`sql\s*\n(.*?)\n\s*` ++ three backticks, DOTALL): leftmost start, greedy
whitespace after the tag, lazy group. -/
def findSqlFenceFallback (l : List Char) : Option (List Char) :=
  (List.range (l.length + 1)).findSome? (fun k =>
    if litAt l k "```sql".data then
      let base := k + 6
      let maxL := wsRun l base
      ((List.range (maxL + 1)).reverse).findSome? (fun L =>
        if lgetD l (base + L) == '\n' then
          let gstart := base + L + 1
          ((List.range (l.length + 1)).filter (fun e => decide (gstart ≤ e))).findSome?
            (fun e =>
              if fenceCloseAt l e then some (pySlice l gstart e) else none)
        else none)
    else none)

/-- `extract_dbt_models` of `evaluate_sql.py`: dbt model files from raw LLM
output, as a mapping (insertion-ordered, collisions overwrite) from model
name to SQL text, or an error string. -/
def extract_dbt_models (raw_output : String) :
    Except PyExc (Option (List (String × String)) × Option String) := do
  if raw_output == "" || pyStrip raw_output == "" then
    return (none, some "empty output")
  -- Step 0: opencode JSONL event stream
  let jsonl ← jsonlTextJoin raw_output
  let t0 : JVal :=
    match jsonl with
    | some s => .str s
    | none => .str raw_output
  -- Step 1: Claude CLI JSON response
  let t1 : JVal :=
    match jsonLoads raw_output with
    | some (.obj kvs) =>
      match jGet? kvs "result" with
      | some v => v
      | none => t0
    | _ => t0
  -- Step 1b: permission-denial fallback; `.upper()` raises AttributeError
  -- when the `result` field was not a string
  let s1 ← match t1 with
    | .str s => Except.ok s
    | _ => Except.error (.attributeError "upper")
  let up := pyUpper s1
  let text ←
    if ¬ pyContains up "SELECT" && ¬ pyContains up "WITH" then do
      match ← SharedEval.extract_from_permission_denials raw_output with
      | some d =>
        if pyContains (pyUpper d) "SELECT" || pyContains (pyUpper d) "WITH" then
          pure d
        else pure s1
      | none => pure s1
    else pure s1
  -- Step 2: filename-comment + fenced-block pairs
  let A := (pySplitNl text).toArray
  let models0 := scanModels A (A.size + 1) 0 []
  let models :=
    if models0.isEmpty then
      match findSqlFenceFallback text.data with
      | some g => [("unnamed_1", pyStrip (String.mk g))]
      | none => []
    else models0
  if models.isEmpty then
    return (none, some "could not extract any SQL model files from output")
  return (some models, none)

end SqlDomain

/-- Task metadata: a parsed JSON object (the task dict), empty when the task
file was not found (`load_task` returns the empty dict). -/
abbrev PyDict := List (String × JVal)

/-- A parsed run-result file; the identity fields are carried through to the
output row, `raw_output` drives extraction. Loading the JSON file itself is
batch I/O glue outside the scoring core. -/
structure RunResult where
  run_id : String := ""
  model : String := ""
  condition : String := ""
  task : String := ""
  task_complexity : String := ""
  rep : String := ""
  duration_ms : String := ""
  raw_output : String := ""

/-- Python `repr` of a scalar JSON value (model: adequate for the f-string
details built by the rule checks; no theorem inspects a non-string case). -/
def pyReprJ1 : JVal → String
  | .null => "None"
  | .bool b => if b then "True" else "False"
  | .num q => if q.den == 1 then toString q.num else toString q
  | .str s => pyQuote ++ s ++ pyQuote
  | .arr _ => "[...]"
  | .obj _ => "\x7b...\x7d"

/-- Python `repr` of a JSON value one level deep (lists of scalars). -/
def pyReprJ : JVal → String
  | .arr xs => "[" ++ pyJoin ", " (xs.map pyReprJ1) ++ "]"
  | v => pyReprJ1 v

/-- Generic `re.finditer` driver: scan positions left to right, emitting each
match and resuming at its end (all embedded patterns have positive width). -/
def finditerAux {α : Type} (len : ℕ) (f : ℕ → Option (α × ℕ)) :
    ℕ → ℕ → List α
  | 0, _ => []
  | fuel + 1, k =>
    if k > len then []
    else
      match f k with
      | some (a, e) => a :: finditerAux len f fuel (max e (k + 1))
      | none => finditerAux len f fuel (k + 1)

/-- All matches of a positional matcher over a string of length `len`. -/
def finditerAll {α : Type} (len : ℕ) (f : ℕ → Option (α × ℕ)) : List α :=
  finditerAux len f (len + 2) 0

namespace SqlDomain

/-- The single-quote character of SQL string literals. -/
def qc : Char := Char.ofNat 39

/-- `_find_comment_start`: position of a `--` comment start outside a string
literal, walking the line with the in-string toggle of the source. -/
def findCommentStartAux : List Char → ℕ → Bool → Option Char → Option ℕ
  | [], _, _, _ => none
  | [_], _, _, _ => none
  | c :: d :: rest, i, inStr, prev =>
    let inStr1 := if c == qc && (i == 0 || !(prev == some '\\')) then !inStr else inStr
    if !inStr1 && c == '-' && d == '-' then some i
    else findCommentStartAux (d :: rest) (i + 1) inStr1 (some c)

/-- `_find_comment_start` of `evaluate_sql.py` (−1 becomes `none`). -/
def _find_comment_start (line : List Char) : Option ℕ :=
  findCommentStartAux line 0 false none

/-- `_strip_comments` of `evaluate_sql.py`. -/
def _strip_comments (sql : String) : String :=
  pyJoin "\n" ((pySplitNl sql).map (fun line =>
    match _find_comment_start line.data with
    | some p => String.mk (line.data.take p)
    | none => line))

/-- Scan a SQL string literal after its opening quote: consume doubled
quotes greedily, backtracking to close on the first quote of the last pair
when no closing quote follows (the semantics of the greedy regex
quote ++ `(?:[^` ++ quote ++ `]|` ++ quote ++ quote ++ `)*` ++ quote).
Returns the remainder after the closing quote. -/
def scanSqlStr : List Char → Option (List Char)
  | [] => none
  | c :: rest =>
    if c == qc then
      match rest with
      | d :: rest2 =>
        if d == qc then
          match scanSqlStr rest2 with
          | some r => some r
          | none => some rest
        else some rest
      | [] => some []
    else scanSqlStr rest

/-- Replace SQL string literals by the placeholder `_STR_` in quotes
(the `re.sub` of `_strip_comments_and_strings`). -/
def replaceSqlStrings : ℕ → List Char → List Char
  | 0, l => l
  | _ + 1, [] => []
  | fuel + 1, c :: rest =>
    if c == qc then
      match scanSqlStr rest with
      | some rem => ([qc] ++ "_STR_".data ++ [qc]) ++ replaceSqlStrings fuel rem
      | none => c :: replaceSqlStrings fuel rest
    else c :: replaceSqlStrings fuel rest

/-- `_strip_comments_and_strings` of `evaluate_sql.py`. -/
def _strip_comments_and_strings (sql : String) : String :=
  let r := _strip_comments sql
  String.mk (replaceSqlStrings (r.length + 1) r.data)

/-- Drop a literal prefix, or fail. -/
def dropLit (l pat : List Char) : Option (List Char) :=
  if pat.isPrefixOf l then some (l.drop pat.length) else none

/-- Match one `{{ ref(...) }}` Jinja call at the head of the input,
returning the referenced name and the remainder (the regex of
`_strip_jinja`; either quote may open and either may close). -/
def jinjaAt (l : List Char) : Option (List Char × List Char) :=
  match dropLit l "\x7b\x7b".data with
  | none => none
  | some l1 =>
    let l2 := l1.dropWhile isPySpace
    match dropLit l2 "ref(".data with
    | none => none
    | some l3 =>
      match l3.dropWhile isPySpace with
      | [] => none
      | q1 :: l5 =>
        if q1 == qc || q1 == '"' then
          let w := l5.takeWhile isWordChar
          let l6 := l5.dropWhile isWordChar
          if w.isEmpty then none
          else
            match l6 with
            | [] => none
            | q2 :: l7 =>
              if q2 == qc || q2 == '"' then
                match dropLit (l7.dropWhile isPySpace) ")".data with
                | none => none
                | some l9 =>
                  match dropLit (l9.dropWhile isPySpace) "\x7d\x7d".data with
                  | none => none
                  | some l11 => some (w, l11)
              else none
        else none

/-- The `re.sub` scan of `_strip_jinja`. -/
def stripJinjaAux : ℕ → List Char → List Char
  | 0, l => l
  | _ + 1, [] => []
  | fuel + 1, c :: rest =>
    match jinjaAt (c :: rest) with
    | some (w, rem) => w ++ stripJinjaAux fuel rem
    | none => c :: stripJinjaAux fuel rest

/-- `_strip_jinja` of `evaluate_sql.py`: replace `{{ ref(x) }}` by `x`. -/
def _strip_jinja (sql : String) : String :=
  String.mk (stripJinjaAux (sql.length + 1) sql.data)

/-- `check_rule_1_keywords_upper` of `evaluate_sql.py` (Rule 1: keywords uppercase). -/
def check_rule_1_keywords_upper (sql_text : String) (task : PyDict) : Bool × String :=
  let cleaned := _strip_comments_and_strings (_strip_jinja sql_text)
  let violations := LOWERCASE_KEYWORDS.filter (fun kw => kwViolation cleaned.data kw)
  if ¬ violations.isEmpty then
    (false, "lowercase keywords: " ++ pyReprStrList (violations.take 5))
  else (true, "ok")

/-- `_remove_paren_content` of `evaluate_sql.py`: drop characters inside
parentheses, keeping the parentheses themselves (depth-tracked). -/
def _remove_paren_content (text : List Char) : List Char :=
  (text.foldl (fun (acc : List Char × ℤ) ch =>
    let (res, depth) := acc
    if ch == '(' then (res ++ [ch], depth + 1)
    else if ch == ')' then (res ++ [ch], depth - 1)
    else if depth == 0 then (res ++ [ch], depth)
    else (res, depth)) ([], 0)).1

/-- Whole-word occurrence of a clause (regex word boundaries, literal inner
spaces, applied to the uppercased line). -/
def clauseFoundIn (l : List Char) (clause : String) : Bool :=
  let pat := clause.data
  (List.range (l.length + 1)).any (fun k =>
    wordBoundaryLeft l k && litAt l k pat && wordBoundaryRight l (k + pat.length))

/-- The per-line loop of rule 2 (first offending line decides). -/
def rule2Lines : List String → Bool × String
  | [] => (true, "ok")
  | line :: rest =>
    let stripped := pyStrip line
    if stripped == "" then rule2Lines rest
    else
      let upper_line := pyUpper (String.mk (_remove_paren_content stripped.data))
      let found := MAJOR_CLAUSES.filter (fun c => clauseFoundIn upper_line.data c)
      if found.length > 1 then
        (false, "multiple clauses on one line: " ++ pyReprStrList found)
      else rule2Lines rest

/-- `check_rule_2_clause_per_line` of `evaluate_sql.py` (Rule 2). -/
def check_rule_2_clause_per_line (sql_text : String) (task : PyDict) : Bool × String :=
  rule2Lines (pySplitNl (_strip_comments (_strip_jinja sql_text)))

/-- The `(\w+)\s+AS\s*\(` tail of the CTE regex at position `p`. -/
def matchCteTail (l : List Char) (p : ℕ) : Option (String × ℕ) :=
  let e1 := p + wordRun l p
  if e1 > p then
    let r2 := wsRun l e1
    if r2 ≥ 1 && litAtCI l (e1 + r2) "AS".data then
      let p3 := e1 + r2 + 2
      let r3 := wsRun l p3
      if lgetD l (p3 + r3) == '(' then
        some (String.mk (pySlice l p e1), p3 + r3 + 1)
      else none
    else none
  else none

/-- One match of the CTE-name regex `(?:\bWITH\s+|,\s*)(\w+)\s+AS\s*\(`
(IGNORECASE) at position `k`. -/
def matchCteAt (l : List Char) (k : ℕ) : Option (String × ℕ) :=
  let viaWith : Option (String × ℕ) :=
    if wordBoundaryLeft l k && litAtCI l k "WITH".data then
      let r := wsRun l (k + 4)
      if r ≥ 1 then matchCteTail l (k + 4 + r) else none
    else none
  match viaWith with
  | some r => some r
  | none =>
    if lgetD l k == ',' then matchCteTail l (k + 1 + wsRun l (k + 1))
    else none

/-- All CTE names of the input, in match order. -/
def findAllCtes (l : List Char) : List String :=
  finditerAll l.length (matchCteAt l)

/-- The `\s+(\w+)(?:\s+(?:AS\s+)?(\w+))?` tail of the table-reference regex,
with the backtracking preferences of the Python engine (greedy optional
group, `AS` branch preferred, failure falls back to reading the next word
as the alias). -/
def matchTableRefTail (l : List Char) (p0 : ℕ) : Option ((String × String) × ℕ) :=
  let r := wsRun l p0
  if r ≥ 1 then
    let p1 := p0 + r
    let e1 := p1 + wordRun l p1
    if e1 > p1 then
      let name := String.mk (pySlice l p1 e1)
      let r2 := wsRun l e1
      if r2 ≥ 1 then
        let p2 := e1 + r2
        let withAs : Option ((String × String) × ℕ) :=
          if litAtCI l p2 "AS".data then
            let r3 := wsRun l (p2 + 2)
            if r3 ≥ 1 then
              let p3 := p2 + 2 + r3
              let e2 := p3 + wordRun l p3
              if e2 > p3 then some ((name, String.mk (pySlice l p3 e2)), e2)
              else none
            else none
          else none
        match withAs with
        | some res => some res
        | none =>
          let e2 := p2 + wordRun l p2
          if e2 > p2 then some ((name, String.mk (pySlice l p2 e2)), e2)
          else some ((name, ""), e1)
      else some ((name, ""), e1)
    else none
  else none

/-- One match of `(?:FROM|JOIN)\s+(\w+)(?:\s+(?:AS\s+)?(\w+))?` (IGNORECASE,
no word boundary on FROM/JOIN) at position `k`. -/
def matchTableRefAt (l : List Char) (k : ℕ) : Option ((String × String) × ℕ) :=
  if litAtCI l k "FROM".data || litAtCI l k "JOIN".data then
    matchTableRefTail l (k + 4)
  else none

/-- `check_rule_3_table_aliases` of `evaluate_sql.py` (Rule 3). -/
def check_rule_3_table_aliases (sql_text : String) (task : PyDict) : Bool × String :=
  let cleaned := _strip_comments (_strip_jinja sql_text)
  let l := cleaned.data
  let cte_names := (findAllCtes l).map pyUpper
  let table_refs := finditerAll l.length (matchTableRefAt l)
  let real_refs := table_refs.filter (fun p =>
    ¬ cte_names.contains (pyUpper p.1) &&
    ¬ ["SELECT", "LATERAL", "("].contains (pyUpper p.1))
  if real_refs.length ≤ 1 then (true, "ok (single table, alias not required)")
  else
    let blockList := (MAJOR_CLAUSES.map pyRemoveSpaces) ++
      ["ON", "WHERE", "AND", "OR", "INNER", "LEFT", "RIGHT", "CROSS"]
    let unaliased := real_refs.filterMap (fun p =>
      if p.2 == "" || blockList.contains (pyUpper p.2) then some p.1 else none)
    if ¬ unaliased.isEmpty then
      (false, "tables without alias: " ++ pyReprStrList unaliased)
    else (true, "ok")

/-- The aggregate/window function names of rule 4, in alternation order. -/
def AGG_FUNCTIONS : List String :=
  ["SUM", "COUNT", "AVG", "MIN", "MAX", "DENSE_RANK", "ROW_NUMBER", "RANK",
   "DATE_TRUNC", "EXTRACT", "COALESCE"]

/-- One match of the aggregation regex `(SUM|...|COALESCE)\s*\(` (IGNORECASE)
at position `k`: the canonical keyword, the matched text, and the start. -/
def matchAggAt (l : List Char) (k : ℕ) : Option ((String × String × ℕ) × ℕ) :=
  AGG_FUNCTIONS.findSome? (fun a =>
    if litAtCI l k a.data then
      let p := k + a.length
      let r := wsRun l p
      if lgetD l (p + r) == '(' then
        some ((a, String.mk (pySlice l k (p + r + 1)), k), p + r + 1)
      else none
    else none)

/-- Depth-tracked scan for the parenthesis matching the one at `ps`;
returns the position just after it, or `ps` itself when unbalanced
(the source loop leaves `end` untouched then). -/
def parenEndAux : List Char → ℤ → ℕ → Option ℕ
  | [], _, _ => none
  | c :: rest, depth, off =>
    if c == '(' then parenEndAux rest (depth + 1) (off + 1)
    else if c == ')' then
      if depth - 1 == 0 then some (off + 1)
      else parenEndAux rest (depth - 1) (off + 1)
    else parenEndAux rest depth (off + 1)

/-- Position just after the parenthesis group opening at `ps`. -/
def parenEnd (l : List Char) (ps : ℕ) : ℕ :=
  match parenEndAux (l.drop ps) 0 0 with
  | some off => ps + off
  | none => ps

/-- `re.match(r'(?i)\s*AS\s+\w+', sub)`. -/
def reMatchAsAlias (sub : List Char) : Bool :=
  let r0 := wsRun sub 0
  litAtCI sub r0 "AS".data &&
    (let r1 := wsRun sub (r0 + 2)
     r1 ≥ 1 && isWordChar (lgetD sub (r0 + 2 + r1)))

/-- `context.split('SELECT')[-1]` when `SELECT` occurs, else the context. -/
def lastSelectSegment (ctx : List Char) : List Char :=
  if listContains ctx "SELECT".data then
    match lastIndexOf ctx "SELECT".data with
    | some k => pySliceFrom ctx (k + 6)
    | none => ctx
  else ctx

/-- Process one aggregation match of rule 4: decide whether it is reported
as missing an `AS` alias. `str.index` misses raise `ValueError`. -/
def rule4ProcessMatch (l : List Char) (m : String × String × ℕ) :
    Except PyExc (Option String) := do
  let (kw, g0, start) := m
  let paren_start ← match listFind? (l.drop start) "(".data with
    | some i => Except.ok (start + i)
    | none => Except.error (.valueError "substring not found")
  let end1 := parenEnd l paren_start
  let after1 := pyStrip (String.mk (pySlice l end1 (end1 + 50)))
  let (endF, afterF) ←
    if pyStartsWith (pyUpper after1) "OVER" then do
      let over_paren ← match listFind? (l.drop end1) "(".data with
        | some i => Except.ok (end1 + i)
        | none => Except.error (.valueError "substring not found")
      let end2 := parenEnd l over_paren
      Except.ok (end2, pyStrip (String.mk (pySlice l end2 (end2 + 20))))
    else Except.ok (end1, after1)
  if ¬ reMatchAsAlias (pySlice l endF (endF + 30)) then
    let context_before := (pyUpper (String.mk (l.take start))).data
    let last_select := lastSelectSegment context_before
    if listContains last_select "WHERE".data || listContains last_select "HAVING".data ||
        listContains last_select "ON".data || listContains last_select "GROUP BY".data then
      return none
    else if kw == "ROW_NUMBER" then
      return none
    else if pyStartsWith afterF "," || pyStartsWith afterF "\n" || afterF == "" then
      return some (g0 ++ "(...)")
    else
      return none
  else
    return none

/-- `check_rule_4_column_aliases` of `evaluate_sql.py` (Rule 4; the only SQL
rule that can raise, via `str.index`). -/
def check_rule_4_column_aliases (sql_text : String) (task : PyDict) :
    Except PyExc (Bool × String) := do
  let cleaned := _strip_comments (_strip_jinja sql_text)
  let l := cleaned.data
  let ms := finditerAll l.length (matchAggAt l)
  if ms.isEmpty then
    return (true, "n/a (no aggregations)")
  let missing ← ms.foldlM (fun acc m => do
    match ← rule4ProcessMatch l m with
    | some s => pure (acc ++ [s])
    | none => pure acc) ([] : List String)
  if ¬ missing.isEmpty then
    return (false, "aggregations without AS alias: " ++ pyReprStrList (missing.take 3))
  return (true, "ok")

/-- The first regex of rule 5: `\bSELECT\s+\*\s*(?:,|\bFROM\b|\n|$)` (IGNORECASE). -/
def rule5SelectStar (l : List Char) : Bool :=
  (List.range (l.length + 1)).any (fun k =>
    wordBoundaryLeft l k && litAtCI l k "SELECT".data &&
    (let p := k + 6
     let r := wsRun l p
     decide (r ≥ 1) && lgetD l (p + r) == '*' &&
     (let q := p + r + 1
      let maxR := wsRun l q
      (List.range (maxR + 1)).any (fun r2 =>
        let pos := q + r2
        lgetD l pos == ',' ||
        (wordBoundaryLeft l pos && litAtCI l pos "FROM".data &&
          wordBoundaryRight l (pos + 4)) ||
        lgetD l pos == '\n' || pos == l.length))))

/-- The second regex of rule 5: `\bSELECT\s+\w+\.\*` (IGNORECASE). -/
def rule5TableStar (l : List Char) : Bool :=
  (List.range (l.length + 1)).any (fun k =>
    wordBoundaryLeft l k && litAtCI l k "SELECT".data &&
    (let p := k + 6
     let r := wsRun l p
     let w := wordRun l (p + r)
     decide (r ≥ 1) && decide (w ≥ 1) &&
       lgetD l (p + r + w) == '.' && lgetD l (p + r + w + 1) == '*'))

/-- `check_rule_5_no_select_star` of `evaluate_sql.py` (Rule 5). -/
def check_rule_5_no_select_star (sql_text : String) (task : PyDict) : Bool × String :=
  let cleaned := _strip_comments (_strip_jinja sql_text)
  if rule5SelectStar cleaned.data then (false, "SELECT * found")
  else if rule5TableStar cleaned.data then (false, "SELECT table.* found")
  else (true, "ok")

/-- `check_rule_6_comment_header` of `evaluate_sql.py` (Rule 6). -/
def check_rule_6_comment_header (sql_text : String) (task : PyDict) : Bool × String :=
  let stripped := pyStrip sql_text
  if pyStartsWith stripped "--" then
    let first_line := pyStrip ((pySplitNl stripped).headD "")
    let comment_text := pyStrip (pyLStripDash first_line)
    if comment_text.length > 3 then (true, "ok")
    else (false, "comment header is too short or empty")
  else (false, "missing comment header")

/-- `re.search(r'\bINNER\s+JOIN\b', ..., re.IGNORECASE)`. -/
def innerJoinSearch (l : List Char) : Bool :=
  (List.range (l.length + 1)).any (fun k =>
    wordBoundaryLeft l k && litAtCI l k "INNER".data &&
    (let r := wsRun l (k + 5)
     decide (r ≥ 1) && litAtCI l (k + 5 + r) "JOIN".data &&
       wordBoundaryRight l (k + 5 + r + 4)))

/-- Positions of whole-word `JOIN` (IGNORECASE), in order. -/
def joinPositions (l : List Char) : List ℕ :=
  (List.range (l.length + 1)).filter (fun k =>
    wordBoundaryLeft l k && litAtCI l k "JOIN".data && wordBoundaryRight l (k + 4))

/-- `re.search(r'\b(LEFT|RIGHT|CROSS|INNER)\s*$', before, re.IGNORECASE)` on
an already-rstripped prefix. -/
def endsWithJoinQualifier (before : List Char) : Bool :=
  ["LEFT", "RIGHT", "CROSS", "INNER"].any (fun w =>
    decide (before.length ≥ w.length) &&
    litAtCI before (before.length - w.length) w.data &&
    wordBoundaryLeft before (before.length - w.length))

/-- `check_rule_7_left_join_only` of `evaluate_sql.py` (Rule 7). -/
def check_rule_7_left_join_only (sql_text : String) (task : PyDict) : Bool × String :=
  let cleaned := _strip_comments_and_strings (_strip_jinja sql_text)
  let l := cleaned.data
  if innerJoinSearch l then
    (false, "INNER JOIN found (use LEFT JOIN for analytics)")
  else
    match (joinPositions l).find? (fun k =>
      ¬ endsWithJoinQualifier (pyRStrip (String.mk (l.take k))).data) with
    | some _ => (false, "plain JOIN found (use LEFT JOIN for analytics)")
    | none => (true, "ok")

/-- `check_rule_8_coalesce_unknown` of `evaluate_sql.py` (Rule 8). -/
def check_rule_8_coalesce_unknown (sql_text : String) (task : PyDict) : Bool × String :=
  let nullable := (jGet? task "nullable_dimension_columns").getD (.arr [])
  if ¬ jTruthy nullable then (true, "n/a (no nullable dimensions in task)")
  else
    let cleaned := _strip_comments (_strip_jinja sql_text)
    let upper := pyUpper cleaned
    if ¬ pyContains upper "COALESCE" then
      (false, "no COALESCE found (expected for: " ++ pyReprJ nullable ++ ")")
    else if ¬ pyContains (pyRemoveSpaces (pyLower cleaned))
        (pyQuote ++ "(unknown)" ++ pyQuote) then
      if pyContains (pyLower cleaned) (pyQuote ++ "unknown" ++ pyQuote) then
        (false, "COALESCE uses " ++ pyQuote ++ "unknown" ++ pyQuote ++
          " instead of " ++ pyQuote ++ "(unknown)" ++ pyQuote)
      else
        (false, "COALESCE present but " ++ pyQuote ++ "(unknown)" ++ pyQuote ++
          " string not found")
    else (true, "ok")

/-- `check_rule_9_row_number_dedup` of `evaluate_sql.py` (Rule 9). -/
def check_rule_9_row_number_dedup (sql_text : String) (task : PyDict) : Bool × String :=
  if ¬ jTruthy ((jGet? task "requires_deduplication").getD .null) then
    (true, "n/a (dedup not required)")
  else
    let cleaned := _strip_comments (_strip_jinja sql_text)
    let upper := pyUpper cleaned
    if ¬ pyContains upper "ROW_NUMBER" then
      (false, "ROW_NUMBER not found (dedup required)")
    else if ¬ pyContains upper "PARTITION BY" then
      (false, "ROW_NUMBER without PARTITION BY")
    else (true, "ok")

/-- Count of whole-word `WITH` occurrences (IGNORECASE). -/
def withCount (l : List Char) : ℕ :=
  ((List.range (l.length + 1)).filter (fun k =>
    wordBoundaryLeft l k && litAtCI l k "WITH".data &&
      wordBoundaryRight l (k + 4))).length

/-- `check_rule_10_one_cte_per_file` of `evaluate_sql.py` (Rule 10). -/
def check_rule_10_one_cte_per_file (sql_text : String) (task : PyDict) : Bool × String :=
  let cleaned := _strip_comments_and_strings (_strip_jinja sql_text)
  let l := cleaned.data
  let wc := withCount l
  if wc > 1 then
    (false, "multiple WITH blocks found (" ++ toString wc ++ ")")
  else if wc == 1 then
    let cte_names := findAllCtes l
    if cte_names.length > 1 then
      (false, "multiple CTEs in one file: " ++ pyReprStrList cte_names)
    else (true, "ok")
  else (true, "ok")

/-- Search for `\{\{\s*ref\(` (rule 11). -/
def refCallSearch (l : List Char) : Bool :=
  (List.range (l.length + 1)).any (fun k =>
    litAt l k "\x7b\x7b".data &&
      (let r := wsRun l (k + 2)
       litAt l (k + 2 + r) "ref(".data))

/-- `check_rule_11_jinja_ref` of `evaluate_sql.py` (Rule 11, cross-file). -/
def check_rule_11_jinja_ref (models : List (String × String)) (task : PyDict) :
    Bool × String :=
  let non_staging := models.filter (fun p =>
    ¬ pyStartsWith p.1 "stg_" && ¬ pyStartsWith p.1 "unnamed")
  if non_staging.isEmpty then (false, "no non-staging models found")
  else
    let missing_ref := (non_staging.filter (fun p => ¬ refCallSearch p.2.data)).map (·.1)
    if ¬ missing_ref.isEmpty then
      (false, "models without ref(): " ++ pyReprStrList missing_ref)
    else (true, "ok")

/-- `check_rule_12_layer_naming` of `evaluate_sql.py` (Rule 12, cross-file). -/
def check_rule_12_layer_naming (models : List (String × String)) (task : PyDict) :
    Bool × String :=
  let bad_names := models.filterMap (fun p =>
    if pyStartsWith p.1 "unnamed" then some p.1
    else if ¬ VALID_PREFIXES.any (fun pre => pyStartsWith p.1 pre) then some p.1
    else none)
  if ¬ bad_names.isEmpty then
    (false, "invalid prefixes: " ++ pyReprStrList bad_names)
  else (true, "ok")

/-- `PER_FILE_RULES` of `evaluate_sql.py` (rules 1-10, in order; only rule 4
can raise, the others are wrapped as pure). -/
def PER_FILE_RULES : List (String × (String → PyDict → Except PyExc (Bool × String))) :=
  [("rule_1_keywords_upper", fun s t => .ok (check_rule_1_keywords_upper s t)),
   ("rule_2_clause_per_line", fun s t => .ok (check_rule_2_clause_per_line s t)),
   ("rule_3_table_aliases", fun s t => .ok (check_rule_3_table_aliases s t)),
   ("rule_4_column_aliases", check_rule_4_column_aliases),
   ("rule_5_no_select_star", fun s t => .ok (check_rule_5_no_select_star s t)),
   ("rule_6_comment_header", fun s t => .ok (check_rule_6_comment_header s t)),
   ("rule_7_left_join_only", fun s t => .ok (check_rule_7_left_join_only s t)),
   ("rule_8_coalesce_unknown", fun s t => .ok (check_rule_8_coalesce_unknown s t)),
   ("rule_9_row_number_dedup", fun s t => .ok (check_rule_9_row_number_dedup s t)),
   ("rule_10_one_cte_per_file", fun s t => .ok (check_rule_10_one_cte_per_file s t))]

/-- `CROSS_FILE_RULES` of `evaluate_sql.py` (rules 11-12). -/
def CROSS_FILE_RULES :
    List (String × (List (String × String) → PyDict → Bool × String)) :=
  [("rule_11_jinja_ref", check_rule_11_jinja_ref),
   ("rule_12_layer_naming", check_rule_12_layer_naming)]

/-- Whole-word `JOIN` search (IGNORECASE), used by the rule-7 applicability skip. -/
def joinSearch (l : List Char) : Bool :=
  ¬ (joinPositions l).isEmpty

/-- The per-model applicability skips of the per-file rule loop
(skipped models leave the denominator). -/
def sqlRuleSkips (rule_name model_name : String) (sql : String) : Bool :=
  if rule_name == "rule_8_coalesce_unknown" then
    pyStartsWith model_name "stg_"
  else if rule_name == "rule_9_row_number_dedup" then
    pyStartsWith model_name "stg_" || pyStartsWith model_name "fct_" ||
      pyStartsWith model_name "dim_"
  else if rule_name == "rule_7_left_join_only" then
    ¬ joinSearch (_strip_comments_and_strings (_strip_jinja sql)).data
  else false

/-- One per-file rule over all models: pass rate (unrounded for the score,
rounded for the row) and the joined failure details, with the zero-rate
overrides when no model was applicable but the task demands the feature. -/
def perFileRuleRow (task : PyDict) (models : List (String × String))
    (rule_name : String) (check : String → PyDict → Except PyExc (Bool × String)) :
    Except PyExc (ℚ × ℚ × String) := do
  let (passes, applicable, details) ← models.foldlM
    (fun (acc : ℕ × ℕ × List String) m => do
      let (passes, applicable, details) := acc
      if sqlRuleSkips rule_name m.1 m.2 then
        pure acc
      else do
        let (passed, detail) ← check m.2 task
        if passed then pure (passes + 1, applicable + 1, details)
        else pure (passes, applicable + 1, details ++ [m.1 ++ ": " ++ detail]))
    (0, 0, [])
  let rated : ℚ × List String :=
    if applicable == 0 then
      if rule_name == "rule_7_left_join_only" &&
          jTruthy ((jGet? task "requires_left_join").getD .null) then
        (0, ["no models with JOINs found"])
      else if rule_name == "rule_8_coalesce_unknown" &&
          jTruthy ((jGet? task "nullable_dimension_columns").getD .null) then
        (0, ["no non-staging models found"])
      else if rule_name == "rule_9_row_number_dedup" &&
          jTruthy ((jGet? task "requires_deduplication").getD .null) then
        (0, ["no int_ models found for dedup"])
      else (1, details)
    else ((passes : ℚ) / (applicable : ℚ), details)
  let detailStr := if rated.2.isEmpty then "ok" else pyJoin "; " (rated.2.take 3)
  return (rated.1, pyRound rated.1 4, detailStr)

/-- One output row of the SQL evaluator. -/
structure SqlRow where
  run_id : String
  model : String
  condition : String
  task : String
  task_complexity : String
  rep : String
  duration_ms : String
  tokens : List (String × JVal)
  extraction_ok : Bool
  extraction_error : String
  model_count : ℕ
  model_names : String
  per_file : List (String × ℚ × String)
  cross_file : List (String × Bool × String)
  auto_score : ℚ
  scored_rules : ℕ

/-- `evaluate_run` of `evaluate_sql.py` over a parsed run result and the
looked-up task metadata (file loading is batch I/O glue). -/
def evaluate_run (task : PyDict) (result : RunResult) : Except PyExc SqlRow := do
  let tokens ← SharedEval.extract_token_usage result.raw_output
  let (models?, extract_error) ← extract_dbt_models result.raw_output
  match models? with
  | none =>
    return {
      run_id := result.run_id, model := result.model,
      condition := result.condition, task := result.task,
      task_complexity := result.task_complexity, rep := result.rep,
      duration_ms := result.duration_ms, tokens := tokens,
      extraction_ok := false, extraction_error := extract_error.getD "",
      model_count := 0, model_names := "",
      per_file := PER_FILE_RULES.map (fun p => (p.1, (0 : ℚ), "no models extracted")),
      cross_file := CROSS_FILE_RULES.map (fun p => (p.1, false, "no models extracted")),
      auto_score := 0, scored_rules := 0 }
  | some models => do
    let perFile ← PER_FILE_RULES.mapM (fun p => do
      let r ← perFileRuleRow task models p.1 p.2
      pure (p.1, r))
    let autoPer : ℚ := (perFile.map (fun q => q.2.1)).sum
    let cross := CROSS_FILE_RULES.map (fun p =>
      let r := p.2 models task
      (p.1, r.1, r.2))
    let autoCross : ℚ := ((cross.filter (fun c => c.2.1)).length : ℚ)
    return {
      run_id := result.run_id, model := result.model,
      condition := result.condition, task := result.task,
      task_complexity := result.task_complexity, rep := result.rep,
      duration_ms := result.duration_ms, tokens := tokens,
      extraction_ok := true, extraction_error := extract_error.getD "",
      model_count := models.length,
      model_names := pyJoin "; " (models.map (·.1)),
      per_file := perFile.map (fun q => (q.1, q.2.2.1, q.2.2.2)),
      cross_file := cross,
      auto_score := pyRound (autoPer + autoCross) 2,
      scored_rules := PER_FILE_RULES.length + CROSS_FILE_RULES.length }

end SqlDomain

/-! ## `papers/1-pseudocode-format/domains/dockerfile/evaluate_dockerfile.py` -/

namespace DockerDomain

/-- The closing `\n\s*` ++ three backticks of a fence pattern at group-end
candidate `e`: returns the match end. -/
def fenceCloseEnd (l : List Char) (e : ℕ) : Option ℕ :=
  if lgetD l e == '\n' then
    let f := e + 1 + wsRun l (e + 1)
    if litAt l f "```".data then some (f + 3) else none
  else none

/-- Body of a fence pattern after its tag at `base`: greedy `\s*` then a
newline, then the lazy group, then the closing; returns (group, match end). -/
def fenceBodyAt (l : List Char) (base : ℕ) : Option (List Char × ℕ) :=
  let maxL := wsRun l base
  ((List.range (maxL + 1)).reverse).findSome? (fun L =>
    if lgetD l (base + L) == '\n' then
      let gstart := base + L + 1
      (List.range (l.length + 1)).findSome? (fun d =>
        let e := gstart + d
        match fenceCloseEnd l e with
        | some mEnd => some (pySlice l gstart e, mEnd)
        | none => none)
    else none)

/-- All groups matched by a fenced-block pattern whose opening tag is one of
`tags` (regex alternation order), via `re.finditer` (DOTALL). -/
def fenceGroups (l : List Char) (tags : List (List Char)) : List (List Char) :=
  finditerAll l.length (fun k =>
    tags.findSome? (fun tag =>
      if litAt l k tag then fenceBodyAt l (k + tag.length) else none))

/-- `re.search` for the header regex `(?:Dockerfile|dockerfile)\s*:\s*\n`;
returns the position just after the matched newline. -/
def dockerHeaderEnd (l : List Char) : Option ℕ :=
  (List.range (l.length + 1)).findSome? (fun k =>
    if litAt l k "Dockerfile".data || litAt l k "dockerfile".data then
      let p := k + 10 + wsRun l (k + 10)
      if lgetD l p == ':' then
        let q := p + 1
        let maxR := wsRun l q
        ((List.range (maxR + 1)).reverse).findSome? (fun L =>
          if lgetD l (q + L) == '\n' then some (q + L + 1) else none)
      else none
    else none)

/-- The line loop after a `Dockerfile:` header: collect until a second
consecutive blank, non-indented line. -/
def dockerHeaderLines : List String → List String → List String
  | [], acc => acc
  | line :: rest, acc =>
    if ¬ acc.isEmpty && pyStrip line == "" && ¬ pyStartsWith line " " &&
        pyStrip ((acc.getLast?).getD "") == "" then acc
    else dockerHeaderLines rest (acc ++ [line])

/-- An ASCII capital (the `[A-Z]` of the step-4 regex). -/
def isUpperAlpha (c : Char) : Bool :=
  'A' ≤ c && c ≤ 'Z'

/-- `re.search(r"^(FROM\s+\S+.*?)(?:\n\n[A-Z]|\Z)", text, DOTALL | MULTILINE)`:
first line-anchored `FROM`, group up to the first blank line followed by a
capital, else to the end. -/
def dockerFromMatch (l : List Char) : Option String :=
  (List.range (l.length + 1)).findSome? (fun k =>
    if (k == 0 || lgetD l (k - 1) == '\n') && litAt l k "FROM".data then
      let r := wsRun l (k + 4)
      if r ≥ 1 then
        let p := k + 4 + r
        let w := ((l.drop p).takeWhile (fun c => ¬ isPySpace c)).length
        if w ≥ 1 then
          let stop? := (List.range (l.length + 1)).findSome? (fun d =>
            let e := p + w + d
            if lgetD l e == '\n' && lgetD l (e + 1) == '\n' &&
                isUpperAlpha (lgetD l (e + 2)) then some e else none)
          match stop? with
          | some e => some (String.mk (pySlice l k e))
          | none => some (String.mk (pySliceFrom l k))
        else none
      else none
    else none)

/-- `extract_dockerfile` of `evaluate_dockerfile.py`: a Dockerfile from raw
LLM output via the JSONL / CLI-JSON / permission-denial / fenced-block /
header / plain-text cascade, or an error string. -/
def extract_dockerfile (raw_output : String) :
    Except PyExc (Option String × Option String) := do
  if raw_output == "" then
    return (none, some "empty output")
  -- Step 0: opencode JSONL event stream (inlined identically to the SQL extractor)
  let jsonl ← jsonlTextJoin raw_output
  let t0 : JVal :=
    match jsonl with
    | some s => .str s
    | none => .str raw_output
  -- Step 1: Claude CLI JSON response
  let t1 : JVal :=
    match jsonLoads raw_output with
    | some (.obj kvs) =>
      match jGet? kvs "result" with
      | some v => v
      | none => t0
    | _ => t0
  -- Step 1b: permission-denial fallback, returned directly when clean;
  -- the Python `in` raises TypeError on scalar `result` values
  let hasFrom ← pyInJ "FROM " t1
  if ¬ hasFrom then
    match ← SharedEval.extract_from_permission_denials raw_output with
    | some d =>
      if pyContains d "FROM " then
        return (some (pyStrip d), none)
    | none => pure ()
  -- Steps 2-4 need `text` as a string: `re` raises TypeError otherwise
  let text ← match t1 with
    | .str s => Except.ok s
    | _ => Except.error (.typeError "expected string or bytes-like object")
  let l := text.data
  -- Step 2: fenced code blocks
  let viaTagged := (fenceGroups l ["```Dockerfile".data, "```dockerfile".data]).findSome?
    (fun g =>
      let c := pyStrip (String.mk g)
      if pyContains c "FROM" then some c else none)
  match viaTagged with
  | some c => return (some c, none)
  | none =>
  let viaPlain := (fenceGroups l ["```".data]).findSome?
    (fun g =>
      let c := pyStrip (String.mk g)
      if pyContains c "FROM" then some c else none)
  match viaPlain with
  | some c => return (some c, none)
  | none =>
  -- Step 3: after a `Dockerfile:` header
  let viaHeader :=
    match dockerHeaderEnd l with
    | some hEnd =>
      let rest := String.mk (l.drop hEnd)
      let candidate := pyStrip (pyJoin "\n" (dockerHeaderLines (pySplitNl rest) []))
      if pyContains candidate "FROM" then some candidate else none
    | none => none
  match viaHeader with
  | some c => return (some c, none)
  | none =>
  -- Step 4: plain text starting with FROM
  match dockerFromMatch l with
  | some cand =>
    let c := pyStrip cand
    if c.length > 20 then return (some c, none)
    else return (none, some "could not extract Dockerfile from output")
  | none => return (none, some "could not extract Dockerfile from output")

/-- `validate_structure` of `evaluate_dockerfile.py`: FROM plus CMD/ENTRYPOINT. -/
def validate_structure (dockerfile : String) : Bool × List String :=
  let instructions := ((pySplitNl (pyStrip dockerfile)).map pyStrip).filter
    (fun s => s ≠ "" && ¬ pyStartsWith s "#")
  let has_from := instructions.any (fun s => pyStartsWith (pyUpper s) "FROM ")
  let has_cmd := instructions.any (fun s =>
    pyStartsWith (pyUpper s) "CMD " || pyStartsWith (pyUpper s) "ENTRYPOINT ")
  let errors :=
    (if ¬ has_from then ["missing FROM instruction"] else []) ++
    (if ¬ has_cmd then ["missing CMD or ENTRYPOINT instruction"] else [])
  (errors.isEmpty, errors)

/-- `check_rule_14_dockerignore` of `evaluate_dockerfile.py` (Rule 14, the
manual-review rule): always `(True, "needs_review")`. -/
def check_rule_14_dockerignore (dockerfile : String) (task : PyDict) : Bool × String :=
  (true, "needs_review")

/-- A Dockerfile rule check: `(dockerfile, task) -> (passed, detail)`. -/
abbrev DockerCheck := String → PyDict → Bool × String

/-- `RULE_CHECKS` of `evaluate_dockerfile.py` with an explicit slot for the
rule-14 check (instantiated with `check_rule_14_dockerignore` below).
The thirteen style checks `rule_1_tag` … `rule_13_no_add` are large
regex/scanner functions whose verdicts none of the claims constrain; they
enter the theorems as universally quantified functions. -/
def mkRuleChecks (c1 c2 c3 c4 c5 c6 c7 c8 c9 c10 c11 c12 c13 c14 : DockerCheck) :
    List (String × DockerCheck) :=
  [("rule_1_tag", c1), ("rule_2_user", c2), ("rule_3_secrets", c3),
   ("rule_4_multistage", c4), ("rule_5_workdir", c5), ("rule_6_deps_first", c6),
   ("rule_7_combined_run", c7), ("rule_8_apt", c8), ("rule_9_healthcheck", c9),
   ("rule_10_expose", c10), ("rule_11_label", c11), ("rule_12_exec_form", c12),
   ("rule_13_no_add", c13), ("rule_14_dockerignore", c14)]

/-- `EXCLUDED_RULES` of `evaluate_dockerfile.py`: the manual-only rules that
never count toward `auto_score` / `scored_rules`. -/
def EXCLUDED_RULES : List String := ["rule_14_dockerignore"]

/-- One step of the automated-rule loop of `evaluate_run`: run the check,
count it toward the score when not excluded, track the needs-review flag. -/
def dockerScoreStep (dockerfile : String) (task : PyDict)
    (acc : ℕ × ℕ × Bool × List (String × Bool × String)) (p : String × DockerCheck) :
    ℕ × ℕ × Bool × List (String × Bool × String) :=
  let verdict := p.2 dockerfile task
  let inScore := ¬ EXCLUDED_RULES.contains p.1
  (acc.1 + (if inScore && verdict.1 then 1 else 0),
   acc.2.1 + (if inScore then 1 else 0),
   acc.2.2.1 || pyContains verdict.2 "needs_review",
   acc.2.2.2 ++ [(p.1, verdict.1, verdict.2)])

/-- The automated-rule loop of `evaluate_run`: per-rule verdicts, the score
over non-excluded rules, their count, and the needs-review flag. -/
def dockerScore (rules : List (String × DockerCheck)) (dockerfile : String)
    (task : PyDict) : ℕ × ℕ × Bool × List (String × Bool × String) :=
  rules.foldl (dockerScoreStep dockerfile task) (0, 0, false, [])

/-- The outcome-check registry of `evaluate_dockerfile.py`, with the three
semantic checks as parameters (their bodies are unconstrained by the claims). -/
def mkOutcomeChecks (o1 o2 o3 : DockerCheck) : List (String × DockerCheck) :=
  [("outcome_correct_port", o1), ("outcome_target_names", o2),
   ("outcome_runtime_match", o3)]

/-- One output row of the Dockerfile evaluator. -/
structure DockerRow where
  run_id : String
  model : String
  condition : String
  task : String
  task_complexity : String
  rep : String
  duration_ms : String
  tokens : List (String × JVal)
  extraction_ok : Bool
  extraction_error : String
  structure_valid : Bool
  structure_errors : String
  rules : List (String × Bool × String)
  auto_score : ℕ
  scored_rules : ℕ
  needs_manual_review : Bool
  outcomes : List (String × Bool × String)
  outcome_score : ℕ

/-- `evaluate_run` of `evaluate_dockerfile.py`, generic over the thirteen
style checks and three outcome checks (rule 14 is the concrete
`check_rule_14_dockerignore`); task lookup and file loading are I/O glue. -/
def evaluate_run (c1 c2 c3 c4 c5 c6 c7 c8 c9 c10 c11 c12 c13 : DockerCheck)
    (o1 o2 o3 : DockerCheck) (task : PyDict) (result : RunResult) :
    Except PyExc DockerRow := do
  let rules := mkRuleChecks c1 c2 c3 c4 c5 c6 c7 c8 c9 c10 c11 c12 c13
    check_rule_14_dockerignore
  let outcomes := mkOutcomeChecks o1 o2 o3
  let tokens ← SharedEval.extract_token_usage result.raw_output
  let (df?, extract_error) ← extract_dockerfile result.raw_output
  match df? with
  | none =>
    return {
      run_id := result.run_id, model := result.model,
      condition := result.condition, task := result.task,
      task_complexity := result.task_complexity, rep := result.rep,
      duration_ms := result.duration_ms, tokens := tokens,
      extraction_ok := false, extraction_error := extract_error.getD "",
      structure_valid := false, structure_errors := extract_error.getD "",
      rules := rules.map (fun p => (p.1, false, "no Dockerfile extracted")),
      auto_score := 0, scored_rules := 0, needs_manual_review := false,
      outcomes := outcomes.map (fun p => (p.1, false, "no Dockerfile extracted")),
      outcome_score := 0 }
  | some dockerfile =>
    let (struct_ok, struct_errors) := validate_structure dockerfile
    let (auto, scoredR, needs, ruleRows) := dockerScore rules dockerfile task
    let outRows := outcomes.map (fun p =>
      let r := p.2 dockerfile task
      (p.1, r.1, r.2))
    return {
      run_id := result.run_id, model := result.model,
      condition := result.condition, task := result.task,
      task_complexity := result.task_complexity, rep := result.rep,
      duration_ms := result.duration_ms, tokens := tokens,
      extraction_ok := true, extraction_error := extract_error.getD "",
      structure_valid := struct_ok,
      structure_errors := if struct_errors.isEmpty then "" else pyJoin "; " struct_errors,
      rules := ruleRows,
      auto_score := auto, scored_rules := scoredR, needs_manual_review := needs,
      outcomes := outRows,
      outcome_score := (outRows.filter (fun c => c.2.1)).length }

end DockerDomain

/-! ## `papers/1-pseudocode-format/domains/commit-message/evaluate_commits.py` -/

namespace CommitDomain

/-- The fourteen commit-message rule names, in registry order. -/
def COMMIT_RULE_NAMES : List String :=
  ["rule_1_type", "rule_2_separator", "rule_3_imperative", "rule_4_no_period",
   "rule_5_lowercase", "rule_6_scope_vocab", "rule_7_gitmoji",
   "rule_8_body_why_what", "rule_9_body_word_count", "rule_10_trailer_format",
   "rule_11_signed_off_by", "rule_12_breaking_footer", "rule_13_ticket_ref",
   "rule_14_subject_length"]

/-- One output row of the commit-message evaluator. -/
structure CommitRow where
  run_id : String
  model : String
  condition : String
  task : String
  task_complexity : String
  rep : String
  duration_ms : String
  tokens : List (String × JVal)
  extraction_ok : Bool
  extraction_error : String
  structure_valid : Bool
  structure_errors : String
  rules : List (String × Bool × String)
  auto_score : ℕ
  scored_rules : ℕ

/-- `evaluate_run` of `evaluate_commits.py`, generic over the extractor, the
structure validator, the parser (into an arbitrary parsed-commit type `π`)
and the rule checks zipped with `COMMIT_RULE_NAMES`: the claims constrain
only its extraction-failure branch, so the commit-specific bodies enter the
theorems as universally quantified functions. -/
def evaluate_run {π : Type}
    (extract_commit_message : String → Except PyExc (Option String × Option String))
    (validate_structure : String → Bool × List String)
    (parse_commit_message : String → π)
    (checks : List (π → PyDict → Bool × String))
    (task : PyDict) (result : RunResult) : Except PyExc CommitRow := do
  let ruleChecks := COMMIT_RULE_NAMES.zip checks
  let tokens ← SharedEval.extract_token_usage result.raw_output
  let (message?, extract_error) ← extract_commit_message result.raw_output
  match message? with
  | none =>
    return {
      run_id := result.run_id, model := result.model,
      condition := result.condition, task := result.task,
      task_complexity := result.task_complexity, rep := result.rep,
      duration_ms := result.duration_ms, tokens := tokens,
      extraction_ok := false, extraction_error := extract_error.getD "",
      structure_valid := false,
      structure_errors := extract_error.getD "extraction failed",
      rules := ruleChecks.map (fun p => (p.1, false, "no commit message extracted")),
      auto_score := 0, scored_rules := 0 }
  | some message =>
    let (struct_ok, struct_errors) := validate_structure message
    let parsed := parse_commit_message message
    let verdicts := ruleChecks.map (fun p =>
      let r := p.2 parsed task
      (p.1, r.1, r.2))
    return {
      run_id := result.run_id, model := result.model,
      condition := result.condition, task := result.task,
      task_complexity := result.task_complexity, rep := result.rep,
      duration_ms := result.duration_ms, tokens := tokens,
      extraction_ok := true, extraction_error := extract_error.getD "",
      structure_valid := struct_ok,
      structure_errors := if struct_errors.isEmpty then "" else pyJoin "; " struct_errors,
      rules := verdicts,
      auto_score := (verdicts.filter (fun v => v.2.1)).length,
      scored_rules := verdicts.length }

end CommitDomain

/-! ## `papers/1-pseudocode-format/domains/openapi-spec/evaluate_openapi.py` — rule 13 -/

namespace OpenApiDomain

/-- `check_rule_13_security_scheme` of `evaluate_openapi.py`: a security
scheme must be defined when the task requires auth (`requires_auth`, or
`requirements.auth` when that is falsy). The derived-auth computation
(`requires_auth`, falling back to `requirements.auth`) is factored out as
`requiresAuthFlag`; a non-dict `requirements` value raises `AttributeError`
at `.get`. -/
def requiresAuthFlag (task : Option PyDict) : Except PyExc JVal :=
  match task with
  | none => pure (JVal.bool false)
  | some t =>
    if ¬ t.isEmpty then
      let ra := (jGet? t "requires_auth").getD (.bool false)
      if ¬ jTruthy ra then
        let reqs := (jGet? t "requirements").getD (.obj [])
        pyGet reqs "auth" (.bool false)
      else pure ra
    else pure (JVal.bool false)

/-- The body of `check_rule_13_security_scheme` proper: pass when auth is
not required, otherwise demand a non-empty `components.securitySchemes`
mapping. -/
def check_rule_13_security_scheme (spec : PyDict) (task : Option PyDict) :
    Except PyExc (Bool × String) := do
  let requires_auth : JVal ← requiresAuthFlag task
  if ¬ jTruthy requires_auth then
    return (true, "n/a (auth not required)")
  let components := (jGet? spec "components").getD (.obj [])
  match components with
  | .obj ckvs =>
    let schemes := (jGet? ckvs "securitySchemes").getD (.obj [])
    match schemes with
    | .obj skvs =>
      if skvs.isEmpty then
        return (false, "no securitySchemes defined (auth required)")
      else
        return (true, "ok (" ++ pyJoin ", " (skvs.map (·.1)) ++ ")")
    | _ => return (false, "no securitySchemes defined (auth required)")
  | _ => return (false, "no components block (auth required)")

end OpenApiDomain

/-! ## Statistics: `scripts/analyze_all.py`, `research/kpi-target-experiment/scripts/score_gemini.py`,
`scripts/variability_analysis.py`, `papers/1-pseudocode-format/scripts/bootstrap_ci.py` -/

/-- Insertion into a sorted list (ascending). -/
def sortedInsert (q : ℚ) : List ℚ → List ℚ
  | [] => [q]
  | x :: xs => if q ≤ x then q :: x :: xs else x :: sortedInsert q xs

/-- Ascending sort (`list.sort()` / `np.sort` / `samples.sort()`). -/
def pySort (l : List ℚ) : List ℚ :=
  l.foldr sortedInsert []

/-- Count of pairs with `x_i > y_j` (the `more` counter of `cliffs_delta`). -/
def morePairs (x y : List ℚ) : ℕ :=
  (x.map (fun xi => (y.filter (fun yi => yi < xi)).length)).sum

/-- Count of pairs with `x_i < y_j` (the `less` counter of `cliffs_delta`). -/
def lessPairs (x y : List ℚ) : ℕ :=
  (x.map (fun xi => (y.filter (fun yi => xi < yi)).length)).sum

namespace AnalyzeAll

/-- `cliffs_delta` of `scripts/analyze_all.py`: the effect size
`(more − less) / (n_x · n_y)` and its Romano magnitude band;
`(0.0, "undefined")` when either sample is empty. -/
def cliffs_delta (x y : List ℚ) : ℚ × String :=
  if x.length == 0 || y.length == 0 then (0, "undefined")
  else
    let delta : ℚ :=
      ((morePairs x y : ℤ) - (lessPairs x y : ℤ)) / ((x.length * y.length : ℕ) : ℚ)
    let abs_d := |delta|
    let magnitude :=
      if abs_d < 147/1000 then "negligible"
      else if abs_d < 33/100 then "small"
      else if abs_d < 474/1000 then "medium"
      else "large"
    (delta, magnitude)

/-- The magnitude banding of `analyze_all.cliffs_delta` as a function of
the absolute delta alone. -/
def magnitudeOf (a : ℚ) : String :=
  if a < 147/1000 then "negligible"
  else if a < 33/100 then "small"
  else if a < 474/1000 then "medium"
  else "large"

end AnalyzeAll

namespace ScoreGemini

/-- `cliffs_delta` of `score_gemini.py`: same statistic and thresholds as the
`analyze_all.py` version, but the negligible band is labelled `negl.`. -/
def cliffs_delta (x y : List ℚ) : ℚ × String :=
  let n := x.length * y.length
  if n == 0 then (0, "undefined")
  else
    let delta : ℚ := ((morePairs x y : ℤ) - (lessPairs x y : ℤ)) / (n : ℚ)
    let abs_d := |delta|
    let mag :=
      if abs_d < 147/1000 then "negl."
      else if abs_d < 33/100 then "small"
      else if abs_d < 474/1000 then "medium"
      else "large"
    (delta, mag)

/-- The Beta posterior parameters of `beta_hdi`: observing `failures` out of
`trials`, the failure rate is taken as Beta(failures+1, successes+1). -/
def betaPosteriorParams (successes trials : ℕ) : ℕ × ℕ :=
  (trials - successes + 1, successes + 1)

/-- The deterministic tail of `beta_hdi` (`score_gemini.py` lines 280-293),
applied to the Monte-Carlo sample that `np.random.beta` drew (the draw is
unseeded, so the sample enters the embedding as an argument): sort, report
`samples[int((1+w)/2·n)] − samples[int((1-w)/2·n)]` — the equal-tailed
quantile span — and the fraction of the sample below 0.10. -/
def beta_hdi_report (samples : List ℚ) (width : ℚ) : ℚ × ℚ :=
  let n := samples.length
  let sorted := pySort samples
  let ci_start := Int.toNat ⌊(1 - width) / 2 * (n : ℚ)⌋
  let ci_end := Int.toNat ⌊(1 + width) / 2 * (n : ℚ)⌋
  let hdi_lo := (sorted.get? ci_start).getD 0
  let hdi_hi := (sorted.get? ci_end).getD 0
  (hdi_hi - hdi_lo, ((samples.filter (fun s => s < 1/10)).length : ℚ) / (n : ℚ))

/-- `beta_hdi(successes, trials)` of `score_gemini.py`, with the Monte-Carlo
draw from Beta(failures+1, successes+1) made explicit. -/
def beta_hdi (successes trials : ℕ) (drawnSamples : List ℚ) (width : ℚ) : ℚ × ℚ :=
  beta_hdi_report drawnSamples width

end ScoreGemini

/-- Modelled from the spec: the width of the shortest empirical interval
containing the requested credible mass of the sample — the minimum, over all
windows of `⌈mass·n⌉` consecutive order statistics, of the window span.
(Second definition for the refinement comparison of the HDI claim; the
code-side definition is `ScoreGemini.beta_hdi_report`.) -/
def specShortestIntervalWidth (samples : List ℚ) (mass : ℚ) : ℚ :=
  let sorted := pySort samples
  let n := sorted.length
  let m := Int.toNat ⌈mass * (n : ℚ)⌉
  (((List.range (n + 1 - m)).map (fun i =>
    (sorted.get? (i + m - 1)).getD 0 - (sorted.get? i).getD 0)).minimum?).getD 0

namespace Variability

/-- First position of the minimum (`np.argmin`). -/
def npArgmin : List ℚ → ℕ
  | [] => 0
  | w :: rest =>
    (rest.foldl (fun (acc : ℕ × ℕ × ℚ) v =>
      let (i, bi, bv) := acc
      if v < bv then (i + 1, i + 1, v) else (i + 1, bi, bv)) (0, 0, w)).2.1

/-- `compute_hdi` of `scripts/variability_analysis.py`: the genuinely
shortest interval containing `⌈credibility·n⌉` + 1 order statistics. -/
def compute_hdi (samples : List ℚ) (credibility : ℚ) : ℚ × ℚ :=
  let sorted := pySort samples
  let n := sorted.length
  let interval_size := Int.toNat ⌈credibility * (n : ℚ)⌉
  if interval_size ≥ n then
    ((sorted.get? 0).getD 0, (sorted.getLast?).getD 0)
  else
    let widths := (List.range (n - interval_size)).map (fun i =>
      (sorted.get? (i + interval_size)).getD 0 - (sorted.get? i).getD 0)
    let best := npArgmin widths
    ((sorted.get? best).getD 0, (sorted.get? (best + interval_size)).getD 0)

end Variability

/-! ### `random.Random` — CPython Mersenne Twister (standard-library black
box used by `bootstrap_ci.py`; modelled bit-exactly so that seeding with the
constant 42 is an honest part of the embedding) -/

/-- Truncation to 32 bits. -/
def mtMask (x : ℕ) : ℕ := x % 4294967296

/-- Mersenne-Twister state: the 624 words and the output index. -/
abbrev MTState := Array ℕ × ℕ

/-- `init_genrand` of MT19937. -/
def mtInitGenrand (s : ℕ) : Array ℕ :=
  (List.range 624).foldl (fun a i =>
    if i == 0 then a.setD 0 (mtMask s)
    else
      let prev := a.getD (i - 1) 0
      a.setD i (mtMask (1812433253 * (prev ^^^ (prev >>> 30)) + i)))
    (Array.mkArray 624 0)

/-- One step of the first `init_by_array` mixing loop. -/
def mtMix1 (key : List ℕ) (st : Array ℕ × ℕ × ℕ) : Array ℕ × ℕ × ℕ :=
  let (mt, i, j) := st
  let prev := mt.getD (i - 1) 0
  let cur := mt.getD i 0
  let v := mtMask ((cur ^^^ mtMask ((prev ^^^ (prev >>> 30)) * 1664525)) +
    key.getD j 0 + j)
  let mt1 := mt.setD i v
  let i1 := i + 1
  let (mt2, i2) := if i1 ≥ 624 then (mt1.setD 0 (mt1.getD 623 0), 1) else (mt1, i1)
  let j1 := j + 1
  (mt2, i2, if j1 ≥ key.length then 0 else j1)

/-- One step of the second `init_by_array` mixing loop. -/
def mtMix2 (st : Array ℕ × ℕ) : Array ℕ × ℕ :=
  let (mt, i) := st
  let prev := mt.getD (i - 1) 0
  let cur := mt.getD i 0
  let v := (mtMask (cur ^^^ mtMask ((prev ^^^ (prev >>> 30)) * 1566083941)) +
    4294967296 - i) % 4294967296
  let mt1 := mt.setD i v
  let i1 := i + 1
  if i1 ≥ 624 then (mt1.setD 0 (mt1.getD 623 0), 1) else (mt1, i1)

/-- `init_by_array` of MT19937. -/
def mtInitByArray (key : List ℕ) : Array ℕ :=
  let mt0 := mtInitGenrand 19650218
  let kmax := max 624 key.length
  let (mt1, i1, _) := (List.range kmax).foldl (fun st _ => mtMix1 key st) (mt0, 1, 0)
  let (mt2, _) := (List.range 623).foldl (fun st _ => mtMix2 st) (mt1, i1)
  mt2.setD 0 2147483648

/-- `random.Random(seed)` for a non-negative integer seed below 2^32:
CPython keys `init_by_array` with the seed as a single 32-bit word and
leaves the output index at 624. -/
def pythonRandom (seed : ℕ) : MTState :=
  (mtInitByArray [mtMask seed], 624)

/-- The in-place regeneration sweep of `genrand_uint32`. -/
def mtRegen (mt : Array ℕ) : Array ℕ :=
  (List.range 624).foldl (fun a kk =>
    let y := (a.getD kk 0 &&& 2147483648) + (a.getD ((kk + 1) % 624) 0 &&& 2147483647)
    let v := (a.getD ((kk + 397) % 624) 0) ^^^ (y >>> 1) ^^^
      (if y % 2 == 1 then 2567483615 else 0)
    a.setD kk v) mt

/-- The tempering of `genrand_uint32`. -/
def mtTemper (y0 : ℕ) : ℕ :=
  let y1 := y0 ^^^ (y0 >>> 11)
  let y2 := y1 ^^^ ((y1 <<< 7) &&& 2636928640)
  let y3 := y2 ^^^ ((y2 <<< 15) &&& 4022730752)
  y3 ^^^ (y3 >>> 18)

/-- `genrand_uint32`: one 32-bit output word and the next state. -/
def mtNext (st : MTState) : ℕ × MTState :=
  let (mt, mti) := st
  let (mt1, mti1) := if mti ≥ 624 then (mtRegen mt, 0) else (mt, mti)
  (mtTemper (mt1.getD mti1 0), (mt1, mti1 + 1))

/-- `getrandbits(k)` for `k ≤ 32`: the top `k` bits of one output word. -/
def mtGetrandbits (k : ℕ) (st : MTState) : ℕ × MTState :=
  let (y, st1) := mtNext st
  (y >>> (32 - k), st1)

/-- The retry loop of `Random._randbelow(n)`: draw `bit_length(n)` bits until
the value is below `n`. The Python loop is unbounded but terminates with
probability one; the model carries fuel that no realistic run exhausts. -/
def mtRandbelowAux (n k : ℕ) : ℕ → MTState → ℕ × MTState
  | 0, st => (0, st)
  | fuel + 1, st =>
    let (r, st1) := mtGetrandbits k st
    if r < n then (r, st1) else mtRandbelowAux n k fuel st1

/-- `Random._randbelow(n)` for `n ≥ 1`. -/
def mtRandbelow (n : ℕ) (st : MTState) : ℕ × MTState :=
  mtRandbelowAux n (Nat.log2 n + 1) 10000 st

/-- `rng.choice(values)`. -/
def mtChoice (values : List ℚ) (st : MTState) : ℚ × MTState :=
  let (i, st1) := mtRandbelow values.length st
  ((values.get? i).getD 0, st1)

namespace BootstrapCI

/-- `N_BOOTSTRAP` of `bootstrap_ci.py`. -/
def N_BOOTSTRAP : ℕ := 10000

/-- `CI_LEVEL` of `bootstrap_ci.py`. -/
def CI_LEVEL : ℚ := 95/100

/-- `bootstrap_mean_ci` of `bootstrap_ci.py`: percentile-method bootstrap CI
on the mean. `ambientRng` is the interpreter-global `random` state, which
the embedding passes explicitly only so that independence from it can be
stated: the function constructs its own `random.Random(42)` (line 70 of the
source) and never touches the ambient generator. Degenerate inputs return
before any resampling. -/
def bootstrap_mean_ci (ambientRng : MTState) (values : List ℚ)
    (n_bootstrap : ℕ) (ci_level : ℚ) : ℚ × ℚ × ℚ :=
  let n := values.length
  if n == 0 then (0, 0, 0)
  else if n == 1 then (values.headD 0, values.headD 0, values.headD 0)
  else
    let observed_mean := values.sum / (n : ℚ)
    let alpha := (1 - ci_level) / 2
    let rng := pythonRandom 42
    let boot_means := ((List.range n_bootstrap).foldl (fun (acc : List ℚ × MTState) _ =>
      let (ms, st) := acc
      let (sample, st2) := (List.range n).foldl (fun (acc2 : List ℚ × MTState) _ =>
        let (xs, s) := acc2
        let (v, s2) := mtChoice values s
        (xs ++ [v], s2)) ([], st)
      (ms ++ [sample.sum / (n : ℚ)], st2)) ([], rng)).1
    let sorted := pySort boot_means
    let lower_idx := max 0 (Int.toNat ⌊alpha * (n_bootstrap : ℚ)⌋)
    let upper_idx := min (n_bootstrap - 1) (Int.toNat (⌈(1 - alpha) * (n_bootstrap : ℚ)⌉ - 1))
    (observed_mean, (sorted.get? lower_idx).getD 0, (sorted.get? upper_idx).getD 0)

end BootstrapCI

/-! ## Definitions supporting the claim statements -/

namespace ScoreGemini

/-- The magnitude banding of `score_gemini.cliffs_delta` as a function of the
absolute delta alone (same thresholds as `analyze_all`, abbreviated label). -/
def magnitudeOf (a : ℚ) : String :=
  if a < 147/1000 then "negl."
  else if a < 33/100 then "small"
  else if a < 474/1000 then "medium"
  else "large"

end ScoreGemini

/-- From the claim: among the mined candidates, the longest one that also
contains one of the domain markers (what the spec says the fallback selects;
compared against what `extract_from_permission_denials` actually returns). -/
def specMarkerSelect (cands : List String) (markers : List String) : Option String :=
  match cands.filter (fun c => markers.any (fun m => pyContains (pyUpper c) m)) with
  | [] => none
  | h :: t => some (SharedEval.pyMaxByLen h t)

/-- Exclusivity contract of an extractor result: a normal return is either
an artifact with no error, or no artifact with a non-empty error string;
an uncaught exception is outside the contract. -/
def ExclusiveOk {α : Type} : Except PyExc (Option α × Option String) → Prop
  | .ok (some _, e) => e = none
  | .ok (none, e) => ∃ s, e = some s ∧ s ≠ ""
  | .error _ => True

/-- A possible 40-point Monte-Carlo draw from a Beta posterior (already
sorted): 39 points at 0.01 … 0.39 and one at 0.95. -/
def c2Sample : List ℚ :=
  [1/100, 2/100, 3/100, 4/100, 5/100, 6/100, 7/100, 8/100, 9/100, 10/100,
   11/100, 12/100, 13/100, 14/100, 15/100, 16/100, 17/100, 18/100, 19/100,
   20/100, 21/100, 22/100, 23/100, 24/100, 25/100, 26/100, 27/100, 28/100,
   29/100, 30/100, 31/100, 32/100, 33/100, 34/100, 35/100, 36/100, 37/100,
   38/100, 39/100, 95/100]

/-- A Claude-CLI raw output whose `result` text lacks the SQL markers and
whose `permission_denials` hold two `Write` contents over 20 characters: a
36-character filler without any marker and a shorter fenced SQL block with
`SELECT`. -/
def c6Raw : String :=
  "\x7b\"result\": \"nothing relevant\", \"permission_denials\": " ++
  "[\x7b\"tool_name\": \"Write\", \"tool_input\": " ++
  "\x7b\"content\": \"AAAAAAAAAAAAAAAAAAAAAAAAAAAAAAAAAAAA\"\x7d\x7d, " ++
  "\x7b\"tool_name\": \"Write\", \"tool_input\": " ++
  "\x7b\"content\": \"```sql\\nSELECT 1 AS x\\n```\"\x7d\x7d]\x7d"

/-- The filler denial content of `c6Raw` (36 characters, no marker). -/
def c6Filler : String := "AAAAAAAAAAAAAAAAAAAAAAAAAAAAAAAAAAAA"

/-- The marker-bearing denial content of `c6Raw` (24 characters). -/
def c6SqlContent : String := "```sql\nSELECT 1 AS x\n```"

/-- A style/outcome check that always passes (the Dockerfile evaluator's
check bodies are universally quantified; the concrete witnesses instantiate
them with this one). -/
def dummyCheck : DockerDomain.DockerCheck := fun _ _ => (true, "ok")

/-- A commit-message extractor that always fails (the commit evaluator's
extractor is universally quantified; the concrete witness of the
extraction-failure branch instantiates it with this one). -/
def dummyCommitExtract : String → Except PyExc (Option String × Option String) :=
  fun _ => .ok (none, some "no commit message found in output")

/-- The row the SQL evaluator produces on an empty raw output (extraction
fails with `empty output`). -/
def c1SqlRow : SqlDomain.SqlRow :=
  match SqlDomain.evaluate_run [] { raw_output := "" } with
  | .ok r => r
  | .error _ => {
      run_id := "", model := "", condition := "", task := "",
      task_complexity := "", rep := "", duration_ms := "", tokens := [],
      extraction_ok := false, extraction_error := "", model_count := 0,
      model_names := "", per_file := [], cross_file := [], auto_score := 0,
      scored_rules := 0 }

/-- The row the Dockerfile evaluator produces on an empty raw output. -/
def c1DockerRow : DockerDomain.DockerRow :=
  match DockerDomain.evaluate_run dummyCheck dummyCheck dummyCheck dummyCheck
      dummyCheck dummyCheck dummyCheck dummyCheck dummyCheck dummyCheck
      dummyCheck dummyCheck dummyCheck dummyCheck dummyCheck dummyCheck
      [] { raw_output := "" } with
  | .ok r => r
  | .error _ => {
      run_id := "", model := "", condition := "", task := "",
      task_complexity := "", rep := "", duration_ms := "", tokens := [],
      extraction_ok := false, extraction_error := "", structure_valid := false,
      structure_errors := "", rules := [], auto_score := 0, scored_rules := 0,
      needs_manual_review := false, outcomes := [], outcome_score := 0 }

/-- The row the commit evaluator produces when its extractor fails. -/
def c1CommitRow : CommitDomain.CommitRow :=
  match CommitDomain.evaluate_run dummyCommitExtract (fun _ => (false, []))
      (fun s => s) [] [] { raw_output := "" } with
  | .ok r => r
  | .error _ => {
      run_id := "", model := "", condition := "", task := "",
      task_complexity := "", rep := "", duration_ms := "", tokens := [],
      extraction_ok := false, extraction_error := "", structure_valid := false,
      structure_errors := "", rules := [], auto_score := 0, scored_rules := 0 }

/-- A raw output that extracts as a Dockerfile through step 4 of the cascade
(plain text starting with `FROM`, longer than 20 characters). -/
def c9Raw : String := "FROM node:18-alpine\nCMD run it now"

/-- The row the Dockerfile evaluator produces on `c9Raw` with the thirteen
style checks and three outcome checks instantiated by `dummyCheck`. -/
def c9Row : DockerDomain.DockerRow :=
  match DockerDomain.evaluate_run dummyCheck dummyCheck dummyCheck dummyCheck
      dummyCheck dummyCheck dummyCheck dummyCheck dummyCheck dummyCheck
      dummyCheck dummyCheck dummyCheck dummyCheck dummyCheck dummyCheck
      [] { raw_output := c9Raw } with
  | .ok r => r
  | .error _ => {
      run_id := "", model := "", condition := "", task := "",
      task_complexity := "", rep := "", duration_ms := "", tokens := [],
      extraction_ok := false, extraction_error := "", structure_valid := false,
      structure_errors := "", rules := [], auto_score := 0, scored_rules := 0,
      needs_manual_review := false, outcomes := [], outcome_score := 0 }

/-! ## Helper lemmas -/

/-- A successful `Except` bind factors through a successful first stage. -/
theorem exceptBind_ok {α β : Type} {m : Except PyExc α} {f : α → Except PyExc β}
    {b : β} (h : m >>= f = Except.ok b) : ∃ a, m = Except.ok a ∧ f a = Except.ok b := by
  cases m with
  | error e => simp [Bind.bind, Except.bind] at h
  | ok a => exact ⟨a, rfl, by simpa [Bind.bind, Except.bind] using h⟩

/-- Binding preserves the exclusivity contract when every continuation
satisfies it. -/
theorem exclusiveOk_bind {α β : Type} (m : Except PyExc β)
    (f : β → Except PyExc (Option α × Option String))
    (h : ∀ b, ExclusiveOk (f b)) : ExclusiveOk (m >>= f) := by
  cases m with
  | error e =>
    show ExclusiveOk (Except.error e)
    trivial
  | ok b => exact h b

/-- An error-only return site satisfies the exclusivity contract. -/
theorem exclusiveOk_fail {α : Type} (s : String) (hs : s ≠ "") :
    ExclusiveOk (α := α) (Except.ok (none, some s)) := ⟨s, rfl, hs⟩

/-- A success return site satisfies the exclusivity contract. -/
theorem exclusiveOk_success {α : Type} (a : α) :
    ExclusiveOk (Except.ok (some a, none)) := rfl

/-- `lessPairs` over an empty comparison sample is zero. -/
theorem lessPairs_nil (y : List ℚ) : lessPairs y [] = 0 := by
  induction y with
  | nil => rfl
  | cons b t ih => simpa [lessPairs] using ih

/-- Peeling one element off the second argument of `lessPairs`. -/
theorem lessPairs_cons (y : List ℚ) (a : ℚ) (x : List ℚ) :
    lessPairs y (a :: x) = (y.filter (fun yi => yi < a)).length + lessPairs y x := by
  induction y with
  | nil => rfl
  | cons b t ih =>
    simp only [lessPairs, List.map_cons, List.sum_cons, List.filter_cons] at ih ⊢
    by_cases h : b < a
    · simp [h, List.filter_cons] at ih ⊢
      omega
    · simp [h, List.filter_cons] at ih ⊢
      omega

/-- The pair count `x_i > y_j` equals the pair count `y_j < x_i` with the
arguments swapped. -/
theorem morePairs_swap (x y : List ℚ) : morePairs x y = lessPairs y x := by
  induction x with
  | nil => simp [morePairs, lessPairs_nil]
  | cons a t ih =>
    simp only [morePairs, List.map_cons, List.sum_cons] at ih ⊢
    rw [lessPairs_cons]
    omega

/-- The running maximum never shrinks. -/
theorem pyMaxByLen_ge_aux : ∀ (t : List String) (h : String),
    h.length ≤ (SharedEval.pyMaxByLen h t).length := by
  intro t
  induction t with
  | nil => intro h; simp [SharedEval.pyMaxByLen]
  | cons a t ih =>
    intro h
    have step : SharedEval.pyMaxByLen h (a :: t) =
        SharedEval.pyMaxByLen (if a.length > h.length then a else h) t := rfl
    rw [step]
    have := ih (if a.length > h.length then a else h)
    by_cases hc : a.length > h.length <;> simp [hc] at this ⊢ <;> omega

/-- `pyMaxByLen` returns an element of the candidate list. -/
theorem pyMaxByLen_mem : ∀ (t : List String) (h : String),
    SharedEval.pyMaxByLen h t ∈ h :: t := by
  intro t
  induction t with
  | nil => intro h; simp [SharedEval.pyMaxByLen]
  | cons a t ih =>
    intro h
    have step : SharedEval.pyMaxByLen h (a :: t) =
        SharedEval.pyMaxByLen (if a.length > h.length then a else h) t := rfl
    rw [step]
    rcases List.mem_cons.mp (ih (if a.length > h.length then a else h)) with h1 | h2
    · rw [h1]
      by_cases hc : a.length > h.length
      · simp [hc]
      · simp [hc]
    · exact List.mem_cons_of_mem _ (List.mem_cons_of_mem _ h2)

/-- `pyMaxByLen` dominates every candidate in length. -/
theorem pyMaxByLen_ge : ∀ (t : List String) (h c : String), c ∈ h :: t →
    c.length ≤ (SharedEval.pyMaxByLen h t).length := by
  intro t
  induction t with
  | nil =>
    intro h c hc
    simp at hc
    simp [SharedEval.pyMaxByLen, hc]
  | cons a t ih =>
    intro h c hc
    have step : SharedEval.pyMaxByLen h (a :: t) =
        SharedEval.pyMaxByLen (if a.length > h.length then a else h) t := rfl
    rw [step]
    have hbh : h.length ≤ (if a.length > h.length then a else h).length := by
      by_cases hc2 : a.length > h.length <;> simp [hc2] <;> omega
    have hba : a.length ≤ (if a.length > h.length then a else h).length := by
      by_cases hc2 : a.length > h.length <;> simp [hc2] <;> omega
    rcases List.mem_cons.mp hc with rfl | hc3
    · exact le_trans hbh (pyMaxByLen_ge_aux t _)
    · rcases List.mem_cons.mp hc3 with rfl | hc4
      · exact le_trans hba (pyMaxByLen_ge_aux t _)
      · exact ih _ c (List.mem_cons_of_mem _ hc4)

/-- The scored-rule counter of the Dockerfile rule loop counts exactly the
non-excluded registry entries. -/
theorem dockerScore_foldl_scored
    (df : String) (task : PyDict) :
    ∀ (rules : List (String × DockerDomain.DockerCheck))
      (acc : ℕ × ℕ × Bool × List (String × Bool × String)),
    (rules.foldl (DockerDomain.dockerScoreStep df task) acc).2.1 =
      acc.2.1 + (rules.filter
        (fun p => ¬ DockerDomain.EXCLUDED_RULES.contains p.1)).length := by
  intro rules
  induction rules with
  | nil => intro acc; simp
  | cons p rs ih =>
    intro acc
    rw [List.foldl_cons, ih, List.filter_cons]
    by_cases hp : p.1 ∈ DockerDomain.EXCLUDED_RULES
    · simp [DockerDomain.dockerScoreStep, hp]
    · simp [DockerDomain.dockerScoreStep, hp]
      omega

/-- The auto-score of the Dockerfile rule loop is bounded by the number of
non-excluded registry entries. -/
theorem dockerScore_foldl_auto_le
    (df : String) (task : PyDict) :
    ∀ (rules : List (String × DockerDomain.DockerCheck))
      (acc : ℕ × ℕ × Bool × List (String × Bool × String)),
    (rules.foldl (DockerDomain.dockerScoreStep df task) acc).1 ≤
      acc.1 + (rules.filter
        (fun p => ¬ DockerDomain.EXCLUDED_RULES.contains p.1)).length := by
  intro rules
  induction rules with
  | nil => intro acc; simp
  | cons p rs ih =>
    intro acc
    rw [List.foldl_cons, List.filter_cons]
    refine le_trans (ih _) ?_
    by_cases hp : p.1 ∈ DockerDomain.EXCLUDED_RULES
    · simp [DockerDomain.dockerScoreStep, hp]
    · simp [DockerDomain.dockerScoreStep, hp]
      cases hv : (p.2 df task).1 <;> simp [hv] <;> omega

/-! ## The claims -/

/-- Claim C7: on the input
`-- models/staging/stg_x.sql` + newline + a `sql`-fenced `select * from foo`,
the SQL extractor returns exactly the mapping `stg_x ↦ select * from foo`
with no error; on that model text rule 1 (keyword casing) fails because of
the lowercase `select`/`from`, and rule 5 (no `SELECT *`) fails. -/
theorem c7_sql_scenario :
    SqlDomain.extract_dbt_models
      "-- models/staging/stg_x.sql\n```sql\nselect * from foo\n```" =
      Except.ok (some [("stg_x", "select * from foo")], none) ∧
    (SqlDomain.check_rule_1_keywords_upper "select * from foo" []).1 = false ∧
    (SqlDomain.check_rule_5_no_select_star "select * from foo" []).1 = false := by
  exact ⟨rfl, rfl, rfl⟩

/-- Claim C1, counterexample: on an empty raw output the SQL evaluator
produces a row with `auto_score = 0` but `scored_rules = 0`, not the
domain's fixed non-excluded rule count 12 as the claim states. -/
theorem c1_counterexample :
    (SqlDomain.evaluate_run [] { raw_output := "" }).map
      (fun r => (r.extraction_ok, r.auto_score, r.scored_rules)) =
      Except.ok (false, 0, 0) ∧
    SqlDomain.PER_FILE_RULES.length + SqlDomain.CROSS_FILE_RULES.length = 12 ∧
    (0 : ℕ) ≠ 12 := by
  exact ⟨rfl, rfl, by decide⟩

set_option maxHeartbeats 1600000 in
/-- Claim C2: the code is wrong where its own docstring (and the spec) says
`beta_hdi` reports the shortest credible interval. On the possible
Monte-Carlo sample `c2Sample` (40 sorted points, width 0.95) the code
reports the equal-tailed span 0.93 — together with the correct fraction
9/40 of the sample below 0.10 — while the shortest interval containing
95 percent of the sample has width 0.37, and even the shortest-interval
routine of `variability_analysis.py` returns the narrower (0.01, 0.39). -/
theorem c2_beta_hdi_equal_tailed_not_shortest :
    ScoreGemini.beta_hdi 0 40 c2Sample (95/100) = (93/100, 9/40) ∧
    specShortestIntervalWidth c2Sample (95/100) = 37/100 ∧
    Variability.compute_hdi c2Sample (95/100) = (1/100, 39/100) ∧
    ScoreGemini.betaPosteriorParams 0 40 = (41, 1) ∧
    (93/100 : ℚ) ≠ 37/100 := by
  have e1 : Int.toNat (1 : ℤ) = 1 := rfl
  have e38 : Int.toNat (38 : ℤ) = 38 := rfl
  have e39 : Int.toNat (39 : ℤ) = 39 := rfl
  refine ⟨?_, ?_, ?_, rfl, by norm_num⟩
  · norm_num [ScoreGemini.beta_hdi, ScoreGemini.beta_hdi_report, pySort,
      c2Sample, sortedInsert, List.filter, e1, e39]
  · norm_num [specShortestIntervalWidth, pySort, c2Sample, sortedInsert,
      List.range_succ, e38, List.minimum?, min_def]
  · norm_num [Variability.compute_hdi, Variability.npArgmin, pySort, c2Sample,
      sortedInsert, List.range_succ, e38]

/-- Claim C4: for non-empty samples, `cliffs_delta(x, y)` returns the
negation of the delta returned by `cliffs_delta(y, x)`. -/
theorem c4_cliffs_delta_antisymmetric (x y : List ℚ) (hx : x ≠ []) (hy : y ≠ []) :
    (AnalyzeAll.cliffs_delta x y).1 = -((AnalyzeAll.cliffs_delta y x).1) := by
  cases x with
  | nil => exact absurd rfl hx
  | cons a xs =>
    cases y with
    | nil => exact absurd rfl hy
    | cons b ys =>
      simp [AnalyzeAll.cliffs_delta]
      rw [morePairs_swap (a :: xs) (b :: ys), morePairs_swap (b :: ys) (a :: xs)]
      ring

/-- Claim C4, witness: the antisymmetry instantiated at `x = [1]`, `y = [2]`. -/
theorem c4_cliffs_delta_antisymmetric_witness :
    (AnalyzeAll.cliffs_delta [(1 : ℚ)] [(2 : ℚ)]).1 =
      -((AnalyzeAll.cliffs_delta [(2 : ℚ)] [(1 : ℚ)]).1) :=
  c4_cliffs_delta_antisymmetric [1] [2] (by decide) (by decide)

/-- Claim C5, counterexample: the claim says the returned magnitude is always
one of negligible/small/medium/large, but `score_gemini.cliffs_delta` labels
the negligible band `negl.` even on non-empty samples, and
`analyze_all.cliffs_delta` returns `undefined` on an empty sample. -/
theorem c5_counterexample :
    ScoreGemini.cliffs_delta [(0 : ℚ)] [(0 : ℚ)] = (0, "negl.") ∧
    "negl." ∉ ["negligible", "small", "medium", "large"] ∧
    AnalyzeAll.cliffs_delta ([] : List ℚ) [(1 : ℚ)] = (0, "undefined") ∧
    "undefined" ∉ ["negligible", "small", "medium", "large"] := by
  refine ⟨?_, by decide, rfl, by decide⟩
  norm_num [ScoreGemini.cliffs_delta, morePairs, lessPairs]

/-- Claim C5, amended: for non-empty samples the magnitude of
`analyze_all.cliffs_delta` is determined solely by the absolute delta with
the exact thresholds 0.147 / 0.33 / 0.474 and lies in
negligible/small/medium/large; `score_gemini.cliffs_delta` applies the same
thresholds but labels the first band `negl.`; on empty input both return
`undefined`. -/
theorem c5_amended (x y : List ℚ) (hx : x ≠ []) (hy : y ≠ []) :
    (AnalyzeAll.cliffs_delta x y).2 =
      AnalyzeAll.magnitudeOf |(AnalyzeAll.cliffs_delta x y).1| ∧
    (AnalyzeAll.cliffs_delta x y).2 ∈ ["negligible", "small", "medium", "large"] ∧
    (ScoreGemini.cliffs_delta x y).2 =
      ScoreGemini.magnitudeOf |(ScoreGemini.cliffs_delta x y).1| := by
  cases x with
  | nil => exact absurd rfl hx
  | cons a xs =>
    cases y with
    | nil => exact absurd rfl hy
    | cons b ys =>
      have h1 : ((a :: xs).length == 0) = false := by simp
      have h2 : ((b :: ys).length == 0) = false := by simp
      have h3 : ((a :: xs).length * (b :: ys).length == 0) = false := by
        simp [Nat.mul_eq_zero]
      refine ⟨?_, ?_, ?_⟩
      · simp only [AnalyzeAll.cliffs_delta, AnalyzeAll.magnitudeOf, h1, h2,
          Bool.false_or, Bool.false_eq_true, if_neg, not_false_eq_true]
      · simp only [AnalyzeAll.cliffs_delta, h1, h2, Bool.false_or,
          Bool.false_eq_true, if_neg, not_false_eq_true]
        split_ifs <;> simp
      · simp only [ScoreGemini.cliffs_delta, ScoreGemini.magnitudeOf, h3,
          Bool.false_eq_true, if_neg, not_false_eq_true]

/-- Claim C5, witness: the amended statement instantiated at `x = [1]`,
`y = [2]`. -/
theorem c5_amended_witness :
    (AnalyzeAll.cliffs_delta [(1 : ℚ)] [(2 : ℚ)]).2 =
      AnalyzeAll.magnitudeOf |(AnalyzeAll.cliffs_delta [(1 : ℚ)] [(2 : ℚ)]).1| ∧
    (AnalyzeAll.cliffs_delta [(1 : ℚ)] [(2 : ℚ)]).2 ∈
      ["negligible", "small", "medium", "large"] ∧
    (ScoreGemini.cliffs_delta [(1 : ℚ)] [(2 : ℚ)]).2 =
      ScoreGemini.magnitudeOf |(ScoreGemini.cliffs_delta [(1 : ℚ)] [(2 : ℚ)]).1| :=
  c5_amended [1] [2] (by decide) (by decide)

/-- Claim C10: `bootstrap_mean_ci` is deterministic — it ignores the ambient
interpreter RNG state because it seeds its own `random.Random(42)` — and the
degenerate cases return `(0, 0, 0)` for the empty list and `(v, v, v)` for a
singleton, without raising. -/
theorem c10_bootstrap_deterministic :
    (∀ (amb1 amb2 : MTState) (values : List ℚ) (nb : ℕ) (cl : ℚ),
      BootstrapCI.bootstrap_mean_ci amb1 values nb cl =
        BootstrapCI.bootstrap_mean_ci amb2 values nb cl) ∧
    (∀ (amb : MTState) (nb : ℕ) (cl : ℚ),
      BootstrapCI.bootstrap_mean_ci amb [] nb cl = (0, 0, 0)) ∧
    (∀ (amb : MTState) (v : ℚ) (nb : ℕ) (cl : ℚ),
      BootstrapCI.bootstrap_mean_ci amb [v] nb cl = (v, v, v)) := by
  refine ⟨fun _ _ _ _ _ => rfl, fun _ _ _ => rfl, fun _ _ _ _ => rfl⟩

/-- Claim C1, amended: in all three domain evaluators (SQL, Dockerfile,
commit-message), when extraction of the artifact fails the output row has
`auto_score = 0` and `scored_rules = 0` — not the domain's fixed non-excluded
rule count that the claim states — so `1 - auto_score/scored_rules` is not
defined (downstream consumers special-case `scored_rules = 0` instead). -/
theorem c1_extraction_failure_zero_scored :
    (∀ (task : PyDict) (result : RunResult) (row : SqlDomain.SqlRow),
      SqlDomain.evaluate_run task result = .ok row →
      row.extraction_ok = false →
      row.auto_score = 0 ∧ row.scored_rules = 0) ∧
    (∀ (d1 d2 d3 d4 d5 d6 d7 d8 d9 d10 d11 d12 d13 o1 o2 o3 :
        DockerDomain.DockerCheck)
      (task : PyDict) (result : RunResult) (row : DockerDomain.DockerRow),
      DockerDomain.evaluate_run d1 d2 d3 d4 d5 d6 d7 d8 d9 d10 d11 d12 d13
        o1 o2 o3 task result = .ok row →
      row.extraction_ok = false →
      row.auto_score = 0 ∧ row.scored_rules = 0) ∧
    (∀ (π : Type)
      (ex : String → Except PyExc (Option String × Option String))
      (vs : String → Bool × List String) (pc : String → π)
      (checks : List (π → PyDict → Bool × String))
      (task : PyDict) (result : RunResult) (row : CommitDomain.CommitRow),
      CommitDomain.evaluate_run ex vs pc checks task result = .ok row →
      row.extraction_ok = false →
      row.auto_score = 0 ∧ row.scored_rules = 0) := by
  refine ⟨?_, ?_, ?_⟩
  · intro task result row hok hfail
    unfold SqlDomain.evaluate_run at hok
    rcases exceptBind_ok hok with ⟨tokens, htok, hok2⟩
    rcases exceptBind_ok hok2 with ⟨pr, hex, hok3⟩
    obtain ⟨models?, eerr⟩ := pr
    cases models? with
    | none =>
      simp only [pure, Except.pure, Except.ok.injEq] at hok3
      subst hok3
      exact ⟨rfl, rfl⟩
    | some models =>
      rcases exceptBind_ok hok3 with ⟨pf, hpf, hrow⟩
      simp only [pure, Except.pure, Except.ok.injEq] at hrow
      subst hrow
      simp at hfail
  · intro d1 d2 d3 d4 d5 d6 d7 d8 d9 d10 d11 d12 d13 o1 o2 o3 task result
      row hok hfail
    unfold DockerDomain.evaluate_run at hok
    rcases exceptBind_ok hok with ⟨tokens, htok, hok2⟩
    rcases exceptBind_ok hok2 with ⟨pr, hex, hok3⟩
    obtain ⟨df?, eerr⟩ := pr
    cases df? with
    | none =>
      simp only [pure, Except.pure, Except.ok.injEq] at hok3
      subst hok3
      exact ⟨rfl, rfl⟩
    | some dockerfile =>
      simp only [pure, Except.pure, Except.ok.injEq] at hok3
      subst hok3
      simp at hfail
  · intro π ex vs pc checks task result row hok hfail
    unfold CommitDomain.evaluate_run at hok
    rcases exceptBind_ok hok with ⟨tokens, htok, hok2⟩
    rcases exceptBind_ok hok2 with ⟨pr, hex, hok3⟩
    obtain ⟨msg?, eerr⟩ := pr
    cases msg? with
    | none =>
      simp only [pure, Except.pure, Except.ok.injEq] at hok3
      subst hok3
      exact ⟨rfl, rfl⟩
    | some message =>
      simp only [pure, Except.pure, Except.ok.injEq] at hok3
      subst hok3
      simp at hfail

/-- Claim C1, witness: the zero-scored failure rows instantiated concretely —
the SQL evaluator on an empty raw output, the Dockerfile evaluator (all
checks instantiated with `dummyCheck`) on an empty raw output, and the commit
evaluator with an always-failing extractor. -/
theorem c1_extraction_failure_zero_scored_witness :
    (SqlDomain.evaluate_run [] { raw_output := "" } = .ok c1SqlRow ∧
     c1SqlRow.extraction_ok = false ∧
     c1SqlRow.auto_score = 0 ∧ c1SqlRow.scored_rules = 0) ∧
    (DockerDomain.evaluate_run dummyCheck dummyCheck dummyCheck dummyCheck
       dummyCheck dummyCheck dummyCheck dummyCheck dummyCheck dummyCheck
       dummyCheck dummyCheck dummyCheck dummyCheck dummyCheck dummyCheck
       [] { raw_output := "" } = .ok c1DockerRow ∧
     c1DockerRow.extraction_ok = false ∧
     c1DockerRow.auto_score = 0 ∧ c1DockerRow.scored_rules = 0) ∧
    (CommitDomain.evaluate_run dummyCommitExtract (fun _ => (false, []))
       (fun s => s) [] [] { raw_output := "" } = .ok c1CommitRow ∧
     c1CommitRow.extraction_ok = false ∧
     c1CommitRow.auto_score = 0 ∧ c1CommitRow.scored_rules = 0) := by
  refine ⟨⟨rfl, rfl, ?_⟩, ⟨rfl, rfl, ?_⟩, ⟨rfl, rfl, ?_⟩⟩
  · exact c1_extraction_failure_zero_scored.1 [] { raw_output := "" }
      c1SqlRow rfl rfl
  · exact c1_extraction_failure_zero_scored.2.1 dummyCheck dummyCheck
      dummyCheck dummyCheck dummyCheck dummyCheck dummyCheck dummyCheck
      dummyCheck dummyCheck dummyCheck dummyCheck dummyCheck dummyCheck
      dummyCheck dummyCheck [] { raw_output := "" } c1DockerRow rfl rfl
  · exact c1_extraction_failure_zero_scored.2.2 String dummyCommitExtract
      (fun _ => (false, [])) (fun s => s) [] [] { raw_output := "" }
      c1CommitRow rfl rfl

/-- Claim C3, counterexample: on the input `{"result": 5}` — valid JSON whose
`result` field is not a string — both extractors raise (`AttributeError` at
`.upper()` in the SQL extractor, `TypeError` at `in` in the Dockerfile
extractor) instead of returning an `(artifact, error)` pair. -/
theorem c3_counterexample :
    isPyError (SqlDomain.extract_dbt_models "\x7b\"result\": 5\x7d") = true ∧
    isPyError (DockerDomain.extract_dockerfile "\x7b\"result\": 5\x7d") = true := by
  exact ⟨rfl, rfl⟩

set_option maxRecDepth 8000 in
set_option maxHeartbeats 1600000 in
/-- Claim C3, amended: on every input, whenever an extractor returns normally
(no exception escapes), exactly one element of the returned pair is non-null —
either an artifact with no error, or no artifact with a non-empty error
string; exceptions, however, can escape (see the counterexample). -/
theorem c3_extractors_exclusive (raw : String) :
    ExclusiveOk (SqlDomain.extract_dbt_models raw) ∧
    ExclusiveOk (DockerDomain.extract_dockerfile raw) := by
  constructor
  · unfold SqlDomain.extract_dbt_models
    repeat
      first
        | exact rfl
        | exact ⟨_, rfl, by decide⟩
        | trivial
        | (apply exclusiveOk_bind; intro)
        | split
        | simp only []
  · unfold DockerDomain.extract_dockerfile
    repeat
      first
        | exact rfl
        | exact ⟨_, rfl, by decide⟩
        | trivial
        | (apply exclusiveOk_bind; intro)
        | split
        | simp only []

/-- Claim C6, amended: the permission-denial fallback selects the longest of
the mined candidates (all of which are string-valued `content`/`input.content`
fields, of `Write`-tool denials or `write`-typed `tool_use` events, longer
than 20 characters) — with no marker filter, contrary to the claim: the
selected candidate need not contain the domain's relevance marker even when a
shorter candidate does (see the counterexample). -/
theorem c6_fallback_selects_longest (raw h : String) (t : List String)
    (hc : SharedEval.denialCandidates raw = .ok (h :: t)) :
    SharedEval.extract_from_permission_denials raw =
      .ok (some (SharedEval.pyMaxByLen h t)) ∧
    SharedEval.pyMaxByLen h t ∈ h :: t ∧
    ∀ c ∈ h :: t, c.length ≤ (SharedEval.pyMaxByLen h t).length := by
  refine ⟨?_, pyMaxByLen_mem t h, fun c hmem => pyMaxByLen_ge t h c hmem⟩
  by_cases hraw : raw = ""
  · subst hraw
    rw [show SharedEval.denialCandidates "" = .ok [] from rfl] at hc
    simp at hc
  · unfold SharedEval.extract_from_permission_denials
    rw [if_neg (by simpa using hraw)]
    rw [hc]
    rfl

set_option maxRecDepth 40000 in
/-- Claim C6, counterexample: on `c6Raw` the fallback returns the 36-character
marker-free filler, not the 24-character fenced SQL that contains the marker
`SELECT` as the claim states; downstream, the SQL extractor then fails
although a marker-bearing denial content was available. -/
theorem c6_counterexample :
    SharedEval.extract_from_permission_denials c6Raw = .ok (some c6Filler) ∧
    pyContains (pyUpper c6Filler) "SELECT" = false ∧
    pyContains (pyUpper c6Filler) "WITH" = false ∧
    specMarkerSelect [c6Filler, c6SqlContent] ["SELECT", "WITH"] =
      some c6SqlContent ∧
    c6Filler ≠ c6SqlContent ∧
    SqlDomain.extract_dbt_models c6Raw =
      .ok (none, some "could not extract any SQL model files from output") := by
  exact ⟨rfl, rfl, rfl, rfl, by decide, rfl⟩

set_option maxRecDepth 40000 in
/-- Claim C6, witness: the longest-candidate selection instantiated on
`c6Raw`, whose two mined candidates are the filler and the fenced SQL. -/
theorem c6_fallback_selects_longest_witness :
    SharedEval.denialCandidates c6Raw = .ok (c6Filler :: [c6SqlContent]) ∧
    (SharedEval.extract_from_permission_denials c6Raw =
       .ok (some (SharedEval.pyMaxByLen c6Filler [c6SqlContent])) ∧
     SharedEval.pyMaxByLen c6Filler [c6SqlContent] ∈ c6Filler :: [c6SqlContent] ∧
     ∀ c ∈ c6Filler :: [c6SqlContent],
       c.length ≤ (SharedEval.pyMaxByLen c6Filler [c6SqlContent]).length) :=
  ⟨rfl, c6_fallback_selects_longest c6Raw c6Filler [c6SqlContent] rfl⟩

/-- Claim C8, counterexample: with `requires_auth` absent from the task but
`requirements.auth` set to `true`, rule 13 fails on a spec without security
schemes — the claim states that an absent `requires_auth` makes rule 13 pass,
missing the code's fallback to `requirements.auth`. -/
theorem c8_counterexample :
    OpenApiDomain.check_rule_13_security_scheme []
      (some [("requirements", JVal.obj [("auth", JVal.bool true)])]) =
      .ok (false, "no securitySchemes defined (auth required)") ∧
    jGet? [("requirements", JVal.obj [("auth", JVal.bool true)])]
      "requires_auth" = none := by
  exact ⟨rfl, rfl⟩

/-- Claim C8, amended: for every extracted spec whose (defaulted) `components`
object defines no `securitySchemes` (an empty mapping once defaulted), and
with the required-auth flag as the code derives it (`requires_auth`, falling
back to `requirements.auth` when that is falsy): a truthy flag makes rule 13
fail with detail exactly `no securitySchemes defined (auth required)`, and a
falsy flag makes it pass with detail exactly `n/a (auth not required)`. -/
theorem c8_security_scheme_detail (spec : PyDict) (task : Option PyDict)
    (ckvs : List (String × JVal))
    (hcomp : (jGet? spec "components").getD (JVal.obj []) = JVal.obj ckvs)
    (hsch : (jGet? ckvs "securitySchemes").getD (JVal.obj []) = JVal.obj []) :
    (∀ ra, OpenApiDomain.requiresAuthFlag task = .ok ra → jTruthy ra = true →
      OpenApiDomain.check_rule_13_security_scheme spec task =
        .ok (false, "no securitySchemes defined (auth required)")) ∧
    (∀ ra, OpenApiDomain.requiresAuthFlag task = .ok ra → jTruthy ra = false →
      OpenApiDomain.check_rule_13_security_scheme spec task =
        .ok (true, "n/a (auth not required)")) := by
  constructor
  · intro ra hra htr
    unfold OpenApiDomain.check_rule_13_security_scheme
    rw [hra]
    show (if ¬ jTruthy ra = true then _ else _ : Except PyExc (Bool × String)) = _
    rw [htr]
    simp only [not_true, if_false, hcomp, hsch]
    rfl
  · intro ra hra htr
    unfold OpenApiDomain.check_rule_13_security_scheme
    rw [hra]
    show (if ¬ jTruthy ra = true then _ else _ : Except PyExc (Bool × String)) = _
    rw [htr]
    simp only [Bool.false_eq_true, not_false_eq_true, if_true]
    rfl

/-- Claim C8, witness: the two detail strings instantiated on the empty spec —
auth required through `requires_auth: true`, and auth not required with no
task metadata at all. -/
theorem c8_security_scheme_detail_witness :
    ((jGet? ([] : PyDict) "components").getD (JVal.obj []) = JVal.obj []) ∧
    ((jGet? ([] : List (String × JVal)) "securitySchemes").getD (JVal.obj []) =
      JVal.obj []) ∧
    OpenApiDomain.check_rule_13_security_scheme []
      (some [("requires_auth", JVal.bool true)]) =
      .ok (false, "no securitySchemes defined (auth required)") ∧
    OpenApiDomain.check_rule_13_security_scheme [] none =
      .ok (true, "n/a (auth not required)") :=
  ⟨rfl, rfl,
   (c8_security_scheme_detail [] (some [("requires_auth", JVal.bool true)])
     [] rfl rfl).1 (JVal.bool true) rfl rfl,
   (c8_security_scheme_detail [] none [] rfl rfl).2 (JVal.bool false) rfl rfl⟩

/-- Claim C9: `check_rule_14_dockerignore` returns `(True, "needs_review")`
on every input; it is the only rule in `EXCLUDED_RULES`; every successfully
extracted Dockerfile produces a row with `scored_rules` exactly 13 and
`auto_score ≤ 13`; and the rule-14 slot never contributes to either counter
(swapping its check for any other leaves the score and the scored count
unchanged). -/
theorem c9_rule14_never_scored :
    (∀ df task, DockerDomain.check_rule_14_dockerignore df task =
      (true, "needs_review")) ∧
    DockerDomain.EXCLUDED_RULES = ["rule_14_dockerignore"] ∧
    (∀ (d1 d2 d3 d4 d5 d6 d7 d8 d9 d10 d11 d12 d13 o1 o2 o3 :
        DockerDomain.DockerCheck)
      (task : PyDict) (result : RunResult) (row : DockerDomain.DockerRow),
      DockerDomain.evaluate_run d1 d2 d3 d4 d5 d6 d7 d8 d9 d10 d11 d12 d13
        o1 o2 o3 task result = .ok row → row.extraction_ok = true →
      row.scored_rules = 13 ∧ row.auto_score ≤ 13) ∧
    (∀ (d1 d2 d3 d4 d5 d6 d7 d8 d9 d10 d11 d12 d13 g1 g2 :
        DockerDomain.DockerCheck) (df : String) (task : PyDict),
      ((DockerDomain.dockerScore
          (DockerDomain.mkRuleChecks d1 d2 d3 d4 d5 d6 d7 d8 d9 d10 d11 d12
            d13 g1) df task).1,
       (DockerDomain.dockerScore
          (DockerDomain.mkRuleChecks d1 d2 d3 d4 d5 d6 d7 d8 d9 d10 d11 d12
            d13 g1) df task).2.1) =
      ((DockerDomain.dockerScore
          (DockerDomain.mkRuleChecks d1 d2 d3 d4 d5 d6 d7 d8 d9 d10 d11 d12
            d13 g2) df task).1,
       (DockerDomain.dockerScore
          (DockerDomain.mkRuleChecks d1 d2 d3 d4 d5 d6 d7 d8 d9 d10 d11 d12
            d13 g2) df task).2.1)) := by
  refine ⟨fun df task => rfl, rfl, ?_,
    fun d1 d2 d3 d4 d5 d6 d7 d8 d9 d10 d11 d12 d13 g1 g2 df task => rfl⟩
  intro d1 d2 d3 d4 d5 d6 d7 d8 d9 d10 d11 d12 d13 o1 o2 o3 task result
    row hok hx
  unfold DockerDomain.evaluate_run at hok
  rcases exceptBind_ok hok with ⟨tokens, htok, hok2⟩
  rcases exceptBind_ok hok2 with ⟨pr, hex, hok3⟩
  obtain ⟨df?, eerr⟩ := pr
  cases df? with
  | none =>
    simp only [pure, Except.pure, Except.ok.injEq] at hok3
    subst hok3
    simp at hx
  | some dockerfile =>
    simp only [pure, Except.pure, Except.ok.injEq] at hok3
    subst hok3
    constructor
    · rfl
    · show (DockerDomain.dockerScore
        (DockerDomain.mkRuleChecks d1 d2 d3 d4 d5 d6 d7 d8 d9 d10 d11 d12 d13
          DockerDomain.check_rule_14_dockerignore) dockerfile task).1 ≤ 13
      exact dockerScore_foldl_auto_le dockerfile task _ (0, 0, false, [])

/-- Claim C9, witness: the scored-13 row instantiated concretely on a raw
output that extracts through step 4 of the cascade, with all parameterized
checks instantiated by `dummyCheck` (under which the thirteen scored rules
all pass, so `auto_score = 13 ≤ 13`). -/
theorem c9_rule14_never_scored_witness :
    DockerDomain.check_rule_14_dockerignore c9Raw [] =
      (true, "needs_review") ∧
    DockerDomain.evaluate_run dummyCheck dummyCheck dummyCheck dummyCheck
      dummyCheck dummyCheck dummyCheck dummyCheck dummyCheck dummyCheck
      dummyCheck dummyCheck dummyCheck dummyCheck dummyCheck dummyCheck
      [] { raw_output := c9Raw } = .ok c9Row ∧
    c9Row.extraction_ok = true ∧
    c9Row.scored_rules = 13 ∧ c9Row.auto_score ≤ 13 := by
  refine ⟨c9_rule14_never_scored.1 c9Raw [], rfl, rfl, ?_, ?_⟩
  · exact (c9_rule14_never_scored.2.2.1 dummyCheck dummyCheck dummyCheck
      dummyCheck dummyCheck dummyCheck dummyCheck dummyCheck dummyCheck
      dummyCheck dummyCheck dummyCheck dummyCheck dummyCheck dummyCheck
      dummyCheck [] { raw_output := c9Raw } c9Row rfl rfl).1
  · exact (c9_rule14_never_scored.2.2.1 dummyCheck dummyCheck dummyCheck
      dummyCheck dummyCheck dummyCheck dummyCheck dummyCheck dummyCheck
      dummyCheck dummyCheck dummyCheck dummyCheck dummyCheck dummyCheck
      dummyCheck [] { raw_output := c9Raw } c9Row rfl rfl).2
